import Mathlib

/-!
# Verification of the OpenCL SAXPY host program (`main.cpp`)

The host program is one straight-line function, `main`, that talks to the
OpenCL runtime.  The runtime is outside the program, so its answers are the
input of the embedding: a `Behaviour` assigns a `Response` (status code, count,
handle, written data) to every call site of `main.cpp` (and to every iteration
of the two name-printing loops).  `main` is embedded as a state-passing
function that records every runtime call it makes, with its arguments and the
response it got, and everything it prints.

Memory is part of the environment too: the vectors sized by a reported count,
the name strings sized by a reported size, the kernel text and the two test
vectors are allocated by the C++ runtime, and a request that is not granted
throws an exception that nothing catches, so the process aborts.  A `Behaviour`
says for each allocation whether the memory is there; a request of `2^63` bytes
or more is never granted (the model is of a 64-bit platform).

Float values are modelled by the non-negative integers they denote; the
conversion and the arithmetic round to 24 significant bits (`roundF32`).
-/

namespace OpenCLTutorial

/-! ## Values -/

/-- Opaque runtime handle (`cl_platform_id`, `cl_device_id`, `cl_context`, ...);
`0` is the null handle. -/
abbrev Handle := Nat

/-- A 32-bit float holding a non-negative integer, represented by that integer. -/
abbrev F32 := Nat

/-- Round-to-nearest-even of a non-negative integer to the 24 significant bits
of a 32-bit float (the overflow to infinity above `2^128` is outside the model). -/
def roundF32 (n : Nat) : F32 :=
  let e := (Nat.log2 n + 1) - 24
  let q := n / 2 ^ e
  let r := n % 2 ^ e
  if 2 ^ e < 2 * r ∨ (2 * r = 2 ^ e ∧ q % 2 = 1) then (q + 1) * 2 ^ e else q * 2 ^ e

/-- Single-precision addition on the modelled values. -/
def fadd (x y : F32) : F32 := roundF32 (x + y)

/-- Single-precision multiplication on the modelled values. -/
def fmul (x y : F32) : F32 := roundF32 (x * y)

/-- The vector `v` of `n` default-initialised elements after a callee has
written `written` through `v.data ()` with capacity `n`. -/
def fillVec {α : Type} (n : Nat) (written : List α) (dflt : α) : List α :=
  written.take n ++ List.replicate (n - written.length) dflt

/-- The host region `dst` after `src` has been copied over its beginning. -/
def writeInto {α : Type} (dst src : List α) : List α :=
  src.take dst.length ++ dst.drop src.length

/-! ## Runtime calls and responses -/

/-- `CL_SUCCESS` of the OpenCL header `CL/cl.h`. -/
def CL_SUCCESS : Int := 0

/-- Access mode of a buffer (`CL_MEM_READ_ONLY`, `CL_MEM_READ_WRITE`). -/
inductive Access
  | readOnly
  | readWrite
  deriving DecidableEq, Repr

/-- The device type filter of `clGetDeviceIDs`. -/
inductive DeviceType
  | default
  | cpu
  | gpu
  | accelerator
  | all
  deriving DecidableEq, Repr

/-- The value passed to `clSetKernelArg`; the constructor also fixes the size
argument (`sizeof (cl_mem)` or `sizeof (float)`). -/
inductive ArgValue
  | mem (buffer : Handle)
  | float (v : F32)
  deriving DecidableEq, Repr

/-- A call to the OpenCL runtime with the arguments `main.cpp` passes.  A `Bool`
says whether an out-pointer is non-null; the two info calls always ask for the
name (`CL_PLATFORM_NAME`, `CL_DEVICE_NAME`). -/
inductive Call
  | getPlatformIDs (numEntries : Nat) (wantIds wantCount : Bool)
  | getPlatformInfo (platform : Handle) (size : Nat) (wantValue wantSize : Bool)
  | getDeviceIDs (platform : Handle) (deviceType : DeviceType) (numEntries : Nat)
      (wantIds wantCount : Bool)
  | getDeviceInfo (device : Handle) (size : Nat) (wantValue wantSize : Bool)
  | createContext (platform : Handle) (numDevices : Nat) (devices : List Handle)
  | createProgramWithSource (context : Handle) (source : String)
  | buildProgram (program : Handle) (numDevices : Nat) (devices : List Handle)
  | createKernel (program : Handle) (name : String)
  | createBuffer (context : Handle) (access : Access) (copyHostPtr : Bool)
      (sizeBytes : Nat) (host : List F32)
  | createCommandQueue (context : Handle) (device : Handle)
  | setKernelArg (kernel : Handle) (index : Nat) (value : ArgValue)
  | enqueueNDRangeKernel (queue kernel : Handle) (workDim : Nat)
      (globalWorkSize : List Nat)
  | enqueueReadBuffer (queue buffer : Handle) (blocking : Bool)
      (offset sizeBytes : Nat)
  | releaseCommandQueue (queue : Handle)
  | releaseMemObject (buffer : Handle)
  | releaseKernel (kernel : Handle)
  | releaseProgram (program : Handle)
  | releaseContext (context : Handle)
  deriving DecidableEq, Repr

/-- What the runtime answers to one call: the status it returns (or stores in
`errcode_ret`), the value left in the count or size out-variable (which the
caller initialised to `0`), the object handle it returns, and what it writes
into the array the caller passed. -/
structure Response where
  status : Int
  count : Nat
  handle : Handle
  ids : List Handle
  text : List Char
  data : List F32
  deriving DecidableEq, Repr

/-- One runtime call of the trace with the response it got. -/
structure Event where
  call : Call
  resp : Response
  deriving DecidableEq, Repr

/-- A line written to `std::cout` or `std::cerr` by an output statement that ran
to its `std::endl`. -/
inductive Out
  | cout (line : String)
  | cerr (line : String)
  deriving DecidableEq, Repr

/-- A behaviour of the runtime, the file system and the allocator: one response
for every runtime call site of `main.cpp`, the text of `kernels/saxpy.cl` (empty
when the file cannot be read), and for every allocation of `main.cpp` whether
the memory is available (`mem...`). -/
structure Behaviour where
  platformCount : Response
  memPlatformIds : Bool
  platformIds : Response
  platformNameSize : Nat → Response
  memPlatformName : Nat → Bool
  platformName : Nat → Response
  deviceCount : Response
  memDeviceIds : Bool
  deviceIds : Response
  deviceNameSize : Nat → Response
  memDeviceName : Nat → Bool
  deviceName : Nat → Response
  createContext : Response
  kernelFile : String
  memKernelText : Bool
  createProgram : Response
  buildProgram : Response
  createKernel : Response
  memA : Bool
  memB : Bool
  createBufferA : Response
  createBufferB : Response
  createQueue : Response
  setArg0 : Response
  setArg1 : Response
  setArg2 : Response
  enqueueKernel : Response
  readBuffer : Response
  releaseQueue : Response
  releaseB : Response
  releaseA : Response
  releaseKernel : Response
  releaseProgram : Response
  releaseContext : Response

/-! ## The process monad -/

/-- What the process has done so far: the runtime calls and the output. -/
structure St where
  trace : List Event
  out : List Out
  deriving DecidableEq, Repr

/-- A computation either goes on with a value, or has terminated the process
with an exit code, or has aborted it (`std::terminate` after an exception that
nothing catches: the process is killed by `SIGABRT` and has no exit code). -/
inductive Step (α : Type)
  | ok (a : α) (s : St)
  | exit (code : Int) (s : St)
  | abort (s : St)

/-- Computations of the host program. -/
def M (α : Type) : Type := St → Step α

/-- Sequencing: nothing runs after the process has terminated. -/
def M.bind {α β : Type} (m : M α) (f : α → M β) : M β := fun s =>
  match m s with
  | .ok a s1 => f a s1
  | .exit c s1 => .exit c s1
  | .abort s1 => .abort s1

instance : Monad M where
  pure a := fun s => .ok a s
  bind := M.bind

/-- Perform one runtime call: it is appended to the trace with its response. -/
def call (c : Call) (r : Response) : M Response := fun s =>
  .ok r { s with trace := s.trace ++ [⟨c, r⟩] }

/-- Write a line to `std::cout`. -/
def cout (line : String) : M Unit := fun s =>
  .ok () { s with out := s.out ++ [Out.cout line] }

/-- Write a line to `std::cerr`. -/
def cerr (line : String) : M Unit := fun s =>
  .ok () { s with out := s.out ++ [Out.cerr line] }

/-- Terminate the process (`std::exit (code)`, or `return code` in `main`). -/
def exit {α : Type} (code : Int) : M α := fun s => .exit code s

/-- Abort the process (an exception leaves `main`). -/
def abort {α : Type} : M α := fun s => .abort s

/-- No object of `2^63` bytes or more exists on a 64-bit platform (`max_size ()`
of `std::string` and `std::vector` is at most `PTRDIFF_MAX`). -/
def allocBound : Nat := 2 ^ 63

/-- Whether a request for `bytes` bytes is granted: a request for nothing always
is; any other needs the memory to be available and the size below `allocBound`. -/
def granted (available : Bool) (bytes : Nat) : Bool :=
  decide (bytes = 0) || (available && decide (bytes < allocBound))

/-- An allocation of the C++ runtime (`std::vector<T> v (n)`, `s.resize (n)`):
when the request is not granted `std::length_error` or `std::bad_alloc` is
thrown, and `main.cpp` catches nothing. -/
def allocate (available : Bool) (bytes : Nat) : M Unit :=
  if granted available bytes then pure () else abort

/-- `sizeof (cl_platform_id)` and `sizeof (cl_device_id)`: a pointer. -/
def handleSize : Nat := 8

/-- The loop `for (cl_uint i = start; i < start + remaining; ++i) body (i)`. -/
def forLoopFrom (body : Nat → M Unit) : Nat → Nat → M Unit
  | _, 0 => pure ()
  | i, k + 1 => do
    body i
    forLoopFrom body (i + 1) k

/-- The loop `for (cl_uint i = 0; i < n; ++i) body (i)`. -/
def forLoop (n : Nat) (body : Nat → M Unit) : M Unit := forLoopFrom body 0 n

/-! ## The functions of `main.cpp` -/

/-- `GetPlatformName`: size query, `result.resize (size)`, then fill; neither
status is looked at. -/
def GetPlatformName (rSize rName : Response) (mem : Bool) (id : Handle) : M String := do
  let r1 ← call (.getPlatformInfo id 0 false true) rSize
  let size := r1.count
  allocate mem size
  let r2 ← call (.getPlatformInfo id size true false) rName
  return String.mk (fillVec size r2.text (Char.ofNat 0))

/-- `GetDeviceName`: size query, `result.resize (size)`, then fill; neither
status is looked at. -/
def GetDeviceName (rSize rName : Response) (mem : Bool) (id : Handle) : M String := do
  let r1 ← call (.getDeviceInfo id 0 false true) rSize
  let size := r1.count
  allocate mem size
  let r2 ← call (.getDeviceInfo id size true false) rName
  return String.mk (fillVec size r2.text (Char.ofNat 0))

/-- `CheckError`: on a status other than `CL_SUCCESS` print it and exit with 1. -/
def CheckError (error : Int) : M Unit :=
  if error ≠ CL_SUCCESS then do
    cerr ("OpenCL call failed with error " ++ toString error)
    exit 1
  else
    pure ()

/-- `LoadKernel`: the text of the file, read into a string. -/
def LoadKernel (text : String) (mem : Bool) : M String := do
  allocate mem text.utf8ByteSize
  return text

/-- `CreateProgram`: one source string, status checked. -/
def CreateProgram (r : Response) (source : String) (context : Handle) : M Handle := do
  let r1 ← call (.createProgramWithSource context source) r
  CheckError r1.status
  return r1.handle

/-- `testDataSize = 1 << 10`. -/
def testDataSize : Nat := 1 <<< 10

/-- The vector `a` after the fill loop: `a [i] = static_cast<float> (23 ^ i)`. -/
def hostA : List F32 := (List.range testDataSize).map fun i => roundF32 (23 ^^^ i)

/-- The vector `b` after the fill loop: `b [i] = static_cast<float> (42 ^ i)`. -/
def hostB : List F32 := (List.range testDataSize).map fun i => roundF32 (42 ^^^ i)

/-- `two = 2.0f`. -/
def two : F32 := roundF32 2

/-- The body of `main`.  It returns the contents of the host vector `b` when
control reaches the end of `main` (the process then exits with code 0).  The
allocations are those of `platformIds`, `deviceIds`, the name strings, the
kernel text, and the vectors `a` and `b`. -/
def mainBody (β : Behaviour) : M (List F32) := do
  let r ← call (.getPlatformIDs 0 false true) β.platformCount
  let platformIdCount := r.count
  if platformIdCount = 0 then do
    cerr "No OpenCL platform found"
    exit 1
  else
    cout ("Found " ++ toString platformIdCount ++ " platform(s)")
  allocate β.memPlatformIds (handleSize * platformIdCount)
  let r ← call (.getPlatformIDs platformIdCount true false) β.platformIds
  let platformIds := fillVec platformIdCount r.ids 0
  forLoop platformIdCount fun i => do
    let name ← GetPlatformName (β.platformNameSize i) (β.platformName i)
      (β.memPlatformName i) (platformIds.getD i 0)
    cout ("\t (" ++ toString (i + 1) ++ ") : " ++ name)
  let r ← call (.getDeviceIDs (platformIds.getD 0 0) .all 0 false true) β.deviceCount
  let deviceIdCount := r.count
  if deviceIdCount = 0 then do
    cerr "No OpenCL devices found"
    exit 1
  else
    cout ("Found " ++ toString deviceIdCount ++ " device(s)")
  allocate β.memDeviceIds (handleSize * deviceIdCount)
  let r ← call (.getDeviceIDs (platformIds.getD 0 0) .all deviceIdCount true false)
    β.deviceIds
  let deviceIds := fillVec deviceIdCount r.ids 0
  forLoop deviceIdCount fun i => do
    let name ← GetDeviceName (β.deviceNameSize i) (β.deviceName i)
      (β.memDeviceName i) (deviceIds.getD i 0)
    cout ("\t (" ++ toString (i + 1) ++ ") : " ++ name)
  let r ← call (.createContext (platformIds.getD 0 0) deviceIdCount deviceIds)
    β.createContext
  let context := r.handle
  CheckError r.status
  cout "Context created"
  let source ← LoadKernel β.kernelFile β.memKernelText
  let program ← CreateProgram β.createProgram source context
  let r ← call (.buildProgram program deviceIdCount deviceIds) β.buildProgram
  CheckError r.status
  let r ← call (.createKernel program "SAXPY") β.createKernel
  let kernel := r.handle
  CheckError r.status
  allocate β.memA (4 * testDataSize)
  allocate β.memB (4 * testDataSize)
  let a := hostA
  let b := hostB
  let r ← call (.createBuffer context .readOnly true (4 * testDataSize) a)
    β.createBufferA
  let aBuffer := r.handle
  CheckError r.status
  let r ← call (.createBuffer context .readWrite true (4 * testDataSize) b)
    β.createBufferB
  let bBuffer := r.handle
  CheckError r.status
  let r ← call (.createCommandQueue context (deviceIds.getD 0 0)) β.createQueue
  let queue := r.handle
  CheckError r.status
  let _ ← call (.setKernelArg kernel 0 (.mem aBuffer)) β.setArg0
  let _ ← call (.setKernelArg kernel 1 (.mem bBuffer)) β.setArg1
  let _ ← call (.setKernelArg kernel 2 (.float two)) β.setArg2
  let r ← call (.enqueueNDRangeKernel queue kernel 1 [testDataSize, 0, 0])
    β.enqueueKernel
  CheckError r.status
  let r ← call (.enqueueReadBuffer queue bBuffer true 0 (4 * testDataSize))
    β.readBuffer
  let b := writeInto b (r.data.take testDataSize)
  CheckError r.status
  let _ ← call (.releaseCommandQueue queue) β.releaseQueue
  let _ ← call (.releaseMemObject bBuffer) β.releaseB
  let _ ← call (.releaseMemObject aBuffer) β.releaseA
  let _ ← call (.releaseKernel kernel) β.releaseKernel
  let _ ← call (.releaseProgram program) β.releaseProgram
  let _ ← call (.releaseContext context) β.releaseContext
  return b

/-- What is observed of one run of the process: its exit code (`none` when the
process aborted), its runtime calls, its output, and the vector `b` at the end
of `main`. -/
structure Outcome where
  exitCode : Option Int
  trace : List Event
  out : List Out
  b : Option (List F32)
  deriving DecidableEq, Repr

/-- `main`, run from the start of the process. -/
def main (β : Behaviour) : Outcome :=
  match mainBody β ⟨[], []⟩ with
  | .ok b s => ⟨some 0, s.trace, s.out, some b⟩
  | .exit code s => ⟨some code, s.trace, s.out, none⟩
  | .abort s => ⟨none, s.trace, s.out, none⟩

/-! ## The trace in closed form -/

/-- Concatenation of the segments `f i, f (i+1), ..., f (i+k-1)`. -/
def loopAcc {α : Type} (f : Nat → List α) : Nat → Nat → List α
  | _, 0 => []
  | i, k + 1 => f i ++ loopAcc f (i + 1) k

/-- The vector `platformIds` after the second `clGetPlatformIDs` call. -/
def platformIdsOf (β : Behaviour) : List Handle :=
  fillVec β.platformCount.count β.platformIds.ids 0

/-- The vector `deviceIds` after the second `clGetDeviceIDs` call. -/
def deviceIdsOf (β : Behaviour) : List Handle :=
  fillVec β.deviceCount.count β.deviceIds.ids 0

/-- The two runtime calls of `GetPlatformName` in iteration `i`. -/
def platformNameEvents (β : Behaviour) (i : Nat) : List Event :=
  [⟨.getPlatformInfo ((platformIdsOf β).getD i 0) 0 false true, β.platformNameSize i⟩,
   ⟨.getPlatformInfo ((platformIdsOf β).getD i 0) (β.platformNameSize i).count true false,
     β.platformName i⟩]

/-- The two runtime calls of `GetDeviceName` in iteration `i`. -/
def deviceNameEvents (β : Behaviour) (i : Nat) : List Event :=
  [⟨.getDeviceInfo ((deviceIdsOf β).getD i 0) 0 false true, β.deviceNameSize i⟩,
   ⟨.getDeviceInfo ((deviceIdsOf β).getD i 0) (β.deviceNameSize i).count true false,
     β.deviceName i⟩]

/-- The line printed for platform `i`. -/
def platformNameOut (β : Behaviour) (i : Nat) : List Out :=
  [Out.cout ("\t (" ++ toString (i + 1) ++ ") : " ++
    String.mk (fillVec (β.platformNameSize i).count (β.platformName i).text (Char.ofNat 0)))]

/-- The line printed for device `i`. -/
def deviceNameOut (β : Behaviour) (i : Nat) : List Out :=
  [Out.cout ("\t (" ++ toString (i + 1) ++ ") : " ++
    String.mk (fillVec (β.deviceNameSize i).count (β.deviceName i).text (Char.ofNat 0)))]

/-- The platform count query. -/
def evPlatformCount (β : Behaviour) : Event :=
  ⟨.getPlatformIDs 0 false true, β.platformCount⟩

/-- The calls from the platform list to the device count query. -/
def platformPhase (β : Behaviour) : List Event :=
  [⟨.getPlatformIDs β.platformCount.count true false, β.platformIds⟩] ++
    loopAcc (platformNameEvents β) 0 β.platformCount.count ++
    [⟨.getDeviceIDs ((platformIdsOf β).getD 0 0) .all 0 false true, β.deviceCount⟩]

/-- The device list call and the calls of the device name loop. -/
def devicePhase (β : Behaviour) : List Event :=
  [⟨.getDeviceIDs ((platformIdsOf β).getD 0 0) .all β.deviceCount.count true false,
      β.deviceIds⟩] ++
    loopAcc (deviceNameEvents β) 0 β.deviceCount.count

/-- All enumeration and name calls of a run that found a platform and a device. -/
def queryTrace (β : Behaviour) : List Event :=
  evPlatformCount β :: (platformPhase β ++ devicePhase β)

/-- The context creation call. -/
def evCreateContext (β : Behaviour) : Event :=
  ⟨.createContext ((platformIdsOf β).getD 0 0) β.deviceCount.count (deviceIdsOf β),
    β.createContext⟩

/-- The program creation call. -/
def evCreateProgram (β : Behaviour) : Event :=
  ⟨.createProgramWithSource β.createContext.handle β.kernelFile, β.createProgram⟩

/-- The build call. -/
def evBuildProgram (β : Behaviour) : Event :=
  ⟨.buildProgram β.createProgram.handle β.deviceCount.count (deviceIdsOf β),
    β.buildProgram⟩

/-- The kernel creation call. -/
def evCreateKernel (β : Behaviour) : Event :=
  ⟨.createKernel β.createProgram.handle "SAXPY", β.createKernel⟩

/-- The creation of the buffer seeded from `a`. -/
def evCreateBufferA (β : Behaviour) : Event :=
  ⟨.createBuffer β.createContext.handle .readOnly true (4 * testDataSize) hostA,
    β.createBufferA⟩

/-- The creation of the buffer seeded from `b`. -/
def evCreateBufferB (β : Behaviour) : Event :=
  ⟨.createBuffer β.createContext.handle .readWrite true (4 * testDataSize) hostB,
    β.createBufferB⟩

/-- The queue creation call. -/
def evCreateQueue (β : Behaviour) : Event :=
  ⟨.createCommandQueue β.createContext.handle ((deviceIdsOf β).getD 0 0), β.createQueue⟩

/-- The binding of argument slot 0. -/
def evSetArg0 (β : Behaviour) : Event :=
  ⟨.setKernelArg β.createKernel.handle 0 (.mem β.createBufferA.handle), β.setArg0⟩

/-- The binding of argument slot 1. -/
def evSetArg1 (β : Behaviour) : Event :=
  ⟨.setKernelArg β.createKernel.handle 1 (.mem β.createBufferB.handle), β.setArg1⟩

/-- The binding of argument slot 2. -/
def evSetArg2 (β : Behaviour) : Event :=
  ⟨.setKernelArg β.createKernel.handle 2 (.float two), β.setArg2⟩

/-- The kernel enqueue. -/
def evEnqueueKernel (β : Behaviour) : Event :=
  ⟨.enqueueNDRangeKernel β.createQueue.handle β.createKernel.handle 1
    [testDataSize, 0, 0], β.enqueueKernel⟩

/-- The blocking read-back. -/
def evReadBuffer (β : Behaviour) : Event :=
  ⟨.enqueueReadBuffer β.createQueue.handle β.createBufferB.handle true 0
    (4 * testDataSize), β.readBuffer⟩

/-- The six release calls, in program order. -/
def releaseEvents (β : Behaviour) : List Event :=
  [⟨.releaseCommandQueue β.createQueue.handle, β.releaseQueue⟩,
   ⟨.releaseMemObject β.createBufferB.handle, β.releaseB⟩,
   ⟨.releaseMemObject β.createBufferA.handle, β.releaseA⟩,
   ⟨.releaseKernel β.createKernel.handle, β.releaseKernel⟩,
   ⟨.releaseProgram β.createProgram.handle, β.releaseProgram⟩,
   ⟨.releaseContext β.createContext.handle, β.releaseContext⟩]

/-- The twelve calls from context creation to the read-back, in program order. -/
def workEvents (β : Behaviour) : List Event :=
  [evCreateContext β, evCreateProgram β, evBuildProgram β, evCreateKernel β,
   evCreateBufferA β, evCreateBufferB β, evCreateQueue β, evSetArg0 β, evSetArg1 β,
   evSetArg2 β, evEnqueueKernel β, evReadBuffer β]

/-- The eighteen calls from context creation on, in program order. -/
def pipeline (β : Behaviour) : List Event := workEvents β ++ releaseEvents β

/-- Whether the kernel text can be allocated. -/
def kernelTextGranted (β : Behaviour) : Bool :=
  granted β.memKernelText β.kernelFile.utf8ByteSize

/-- Whether the vector `a` can be allocated. -/
def vectorAGranted (β : Behaviour) : Bool := granted β.memA (4 * testDataSize)

/-- Whether the vector `b` can be allocated. -/
def vectorBGranted (β : Behaviour) : Bool := granted β.memB (4 * testDataSize)

/-- How the part of `main` from context creation on ends: how many calls of
`pipeline` are made, and the exit code (`none` when an allocation is denied and
the process aborts). -/
def pipelineEnd (β : Behaviour) : Nat × Option Int :=
  if β.createContext.status = CL_SUCCESS then
    if kernelTextGranted β = true then
      if β.createProgram.status = CL_SUCCESS then
        if β.buildProgram.status = CL_SUCCESS then
          if β.createKernel.status = CL_SUCCESS then
            if vectorAGranted β = true then
              if vectorBGranted β = true then
                if β.createBufferA.status = CL_SUCCESS then
                  if β.createBufferB.status = CL_SUCCESS then
                    if β.createQueue.status = CL_SUCCESS then
                      if β.enqueueKernel.status = CL_SUCCESS then
                        if β.readBuffer.status = CL_SUCCESS then (18, some 0)
                        else (12, some 1)
                      else (11, some 1)
                    else (7, some 1)
                  else (6, some 1)
                else (5, some 1)
              else (4, none)
            else (4, none)
          else (4, some 1)
        else (3, some 1)
      else (2, some 1)
    else (1, none)
  else (1, some 1)

/-- How many calls of `pipeline` are made. -/
def pipelineCalls (β : Behaviour) : Nat := (pipelineEnd β).1

/-- How a run that reaches context creation ends. -/
def pipelineExit (β : Behaviour) : Option Int := (pipelineEnd β).2

/-- The first index from `i` on, among `k`, that is not `ok`. -/
def firstDenied (ok : Nat → Bool) : Nat → Nat → Option Nat
  | _, 0 => none
  | i, k + 1 => if ok i then firstDenied ok (i + 1) k else some i

/-- Whether the string for the name of platform `i` can be allocated. -/
def platformNameGranted (β : Behaviour) (i : Nat) : Bool :=
  granted (β.memPlatformName i) (β.platformNameSize i).count

/-- Whether the string for the name of device `i` can be allocated. -/
def deviceNameGranted (β : Behaviour) (i : Nat) : Bool :=
  granted (β.memDeviceName i) (β.deviceNameSize i).count

/-- The platform list call. -/
def evPlatformIds (β : Behaviour) : Event :=
  ⟨.getPlatformIDs β.platformCount.count true false, β.platformIds⟩

/-- The device list call. -/
def evDeviceIds (β : Behaviour) : Event :=
  ⟨.getDeviceIDs ((platformIdsOf β).getD 0 0) .all β.deviceCount.count true false,
    β.deviceIds⟩

/-- The size query for the name of platform `i`. -/
def platformSizeQuery (β : Behaviour) (i : Nat) : Event :=
  ⟨.getPlatformInfo ((platformIdsOf β).getD i 0) 0 false true, β.platformNameSize i⟩

/-- The size query for the name of device `i`. -/
def deviceSizeQuery (β : Behaviour) (i : Nat) : Event :=
  ⟨.getDeviceInfo ((deviceIdsOf β).getD i 0) 0 false true, β.deviceNameSize i⟩

/-- A run that ends during enumeration: its trace and how it ends (exit code 1
on a zero count, abort on a denied allocation); `none` when `main` goes on to
context creation. -/
def early (β : Behaviour) : Option (List Event × Option Int) :=
  if β.platformCount.count = 0 then some ([evPlatformCount β], some 1)
  else if granted β.memPlatformIds (handleSize * β.platformCount.count) = true then
    match firstDenied (platformNameGranted β) 0 β.platformCount.count with
    | some j =>
      some (evPlatformCount β :: evPlatformIds β ::
        (loopAcc (platformNameEvents β) 0 j ++ [platformSizeQuery β j]), none)
    | none =>
      if β.deviceCount.count = 0 then some (evPlatformCount β :: platformPhase β, some 1)
      else if granted β.memDeviceIds (handleSize * β.deviceCount.count) = true then
        match firstDenied (deviceNameGranted β) 0 β.deviceCount.count with
        | some j =>
          some (evPlatformCount β :: (platformPhase β ++ evDeviceIds β ::
            (loopAcc (deviceNameEvents β) 0 j ++ [deviceSizeQuery β j])), none)
        | none => none
      else some (evPlatformCount β :: platformPhase β, none)
  else some ([evPlatformCount β], none)

/-- Enumeration runs to its end: a platform and a device are found and the two
vectors and every name string are allocated. -/
def QueriesDone (β : Behaviour) : Prop :=
  β.platformCount.count ≠ 0 ∧
  granted β.memPlatformIds (handleSize * β.platformCount.count) = true ∧
  (∀ i, i < β.platformCount.count → platformNameGranted β i = true) ∧
  β.deviceCount.count ≠ 0 ∧
  granted β.memDeviceIds (handleSize * β.deviceCount.count) = true ∧
  (∀ i, i < β.deviceCount.count → deviceNameGranted β i = true)

/-- Nothing stops `main`: platforms and devices are found, every allocation is
granted and every call whose status `main` checks returns `CL_SUCCESS`. -/
def Completes (β : Behaviour) : Prop :=
  QueriesDone β ∧
  β.createContext.status = CL_SUCCESS ∧ kernelTextGranted β = true ∧
  β.createProgram.status = CL_SUCCESS ∧ β.buildProgram.status = CL_SUCCESS ∧
  β.createKernel.status = CL_SUCCESS ∧ vectorAGranted β = true ∧
  vectorBGranted β = true ∧
  β.createBufferA.status = CL_SUCCESS ∧ β.createBufferB.status = CL_SUCCESS ∧
  β.createQueue.status = CL_SUCCESS ∧ β.enqueueKernel.status = CL_SUCCESS ∧
  β.readBuffer.status = CL_SUCCESS

instance (β : Behaviour) : Decidable (QueriesDone β) := by
  unfold QueriesDone
  infer_instance

instance (β : Behaviour) : Decidable (Completes β) := by
  unfold Completes
  infer_instance

/-- The trace of `main` in closed form. -/
def traceOf (β : Behaviour) : List Event :=
  match early β with
  | some (t, _) => t
  | none => queryTrace β ++ (pipeline β).take (pipelineCalls β)

/-- The exit code of `main` in closed form (`none`: abort). -/
def exitOf (β : Behaviour) : Option Int :=
  match early β with
  | some (_, e) => e
  | none => pipelineExit β

/-! ## Classification of calls -/

/-- The calls whose status `main.cpp` passes to `CheckError`. -/
def Call.checked : Call → Bool
  | .createContext .. => true
  | .createProgramWithSource .. => true
  | .buildProgram .. => true
  | .createKernel .. => true
  | .createBuffer .. => true
  | .createCommandQueue .. => true
  | .enqueueNDRangeKernel .. => true
  | .enqueueReadBuffer .. => true
  | _ => false

/-- Platform and device enumeration calls and name queries. -/
def Call.isQuery : Call → Bool
  | .getPlatformIDs .. => true
  | .getPlatformInfo .. => true
  | .getDeviceIDs .. => true
  | .getDeviceInfo .. => true
  | _ => false

/-- Release calls. -/
def Call.isRelease : Call → Bool
  | .releaseCommandQueue .. => true
  | .releaseMemObject .. => true
  | .releaseKernel .. => true
  | .releaseProgram .. => true
  | .releaseContext .. => true
  | _ => false

/-- Buffer creation calls. -/
def Call.isCreateBuffer : Call → Bool
  | .createBuffer .. => true
  | _ => false

/-- Queue creation calls. -/
def Call.isCreateQueue : Call → Bool
  | .createCommandQueue .. => true
  | _ => false

/-! ## Ordering and ownership -/

/-- A context creation that returned `CL_SUCCESS` and the handle `ctx` is among
the calls `pre`. -/
def ContextCreated (pre : List Event) (ctx : Handle) : Prop :=
  ∃ c ∈ pre, (∃ p n d, c.call = .createContext p n d) ∧
    c.resp.status = CL_SUCCESS ∧ c.resp.handle = ctx

/-- Argument slot `slot` of `kernel` is bound: a binding call for it that
returned `CL_SUCCESS` is among the calls `pre`. -/
def ArgBound (pre : List Event) (kernel : Handle) (slot : Nat) : Prop :=
  ∃ c ∈ pre, (∃ v, c.call = .setKernelArg kernel slot v) ∧ c.resp.status = CL_SUCCESS

/-- A binding call for argument slot `slot` of `kernel` is among the calls
`pre`, whatever status it returned. -/
def BindingIssued (pre : List Event) (kernel : Handle) (slot : Nat) : Prop :=
  ∃ c ∈ pre, ∃ v, c.call = .setKernelArg kernel slot v

/-- A kernel enqueue on `queue` that returned `CL_SUCCESS` is among the calls `pre`. -/
def KernelEnqueued (pre : List Event) (queue : Handle) : Prop :=
  ∃ c ∈ pre, (∃ k d g, c.call = .enqueueNDRangeKernel queue k d g) ∧
    c.resp.status = CL_SUCCESS

/-- What must have happened, among the calls `pre` made so far, before a call:
program, buffer and queue creation need their context, a kernel enqueue needs
the three argument slots of its kernel bound, a read-back needs a kernel
enqueued on its queue. -/
def Requirement (pre : List Event) : Call → Prop
  | .createProgramWithSource ctx _ => ContextCreated pre ctx
  | .createBuffer ctx _ _ _ _ => ContextCreated pre ctx
  | .createCommandQueue ctx _ => ContextCreated pre ctx
  | .enqueueNDRangeKernel _ k _ _ => ArgBound pre k 0 ∧ ArgBound pre k 1 ∧ ArgBound pre k 2
  | .enqueueReadBuffer q _ _ _ _ => KernelEnqueued pre q
  | _ => True

/-- The same with the binding calls only made, not necessarily successful:
program, buffer and queue creation need their context, a kernel enqueue needs a
binding call made for each of the three argument slots of its kernel, a
read-back needs a kernel enqueued on its queue. -/
def IssuedRequirement (pre : List Event) : Call → Prop
  | .createProgramWithSource ctx _ => ContextCreated pre ctx
  | .createBuffer ctx _ _ _ _ => ContextCreated pre ctx
  | .createCommandQueue ctx _ => ContextCreated pre ctx
  | .enqueueNDRangeKernel _ k _ _ =>
    BindingIssued pre k 0 ∧ BindingIssued pre k 1 ∧ BindingIssued pre k 2
  | .enqueueReadBuffer q _ _ _ _ => KernelEnqueued pre q
  | _ => True

/-- The kinds of object `main` owns. -/
inductive Resource
  | context
  | program
  | kernel
  | buffer
  | queue
  deriving DecidableEq, Repr

/-- The object a creation call returned, with its kind. -/
def Event.creates (ev : Event) : Option (Resource × Handle) :=
  match ev.call with
  | .createContext .. => some (.context, ev.resp.handle)
  | .createProgramWithSource .. => some (.program, ev.resp.handle)
  | .createKernel .. => some (.kernel, ev.resp.handle)
  | .createBuffer .. => some (.buffer, ev.resp.handle)
  | .createCommandQueue .. => some (.queue, ev.resp.handle)
  | _ => none

/-- The object a release call releases, with its kind. -/
def Call.releases : Call → Option (Resource × Handle)
  | .releaseCommandQueue q => some (.queue, q)
  | .releaseMemObject b => some (.buffer, b)
  | .releaseKernel k => some (.kernel, k)
  | .releaseProgram p => some (.program, p)
  | .releaseContext c => some (.context, c)
  | _ => none

/-! ## The device -/

/-- Modelled from the spec: `kernels/saxpy.cl` is not among the sources.  One
work-item of the `SAXPY` kernel: for its index `i`,
`second[i] := first[i] + scalar * second[i]` in single precision. -/
def SAXPY (first second : List F32) (scalar : F32) (i : Nat) : List F32 :=
  match first[i]?, second[i]? with
  | some x, some y => second.set i (fadd x (fmul scalar y))
  | _, _ => second

/-- A one-dimensional launch with global size `globalSize`: one work-item for
each index `0, ..., globalSize - 1`. -/
def launch (first second : List F32) (scalar : F32) (globalSize : Nat) : List F32 :=
  (List.range globalSize).foldl (fun snd i => SAXPY first snd scalar i) second

/-- The state of a runtime that does what OpenCL specifies: the contents of the
buffers and the bound kernel arguments. -/
structure Device where
  buffers : Handle → Option (List F32)
  args : Handle → Nat → Option ArgValue

/-- No buffer, no bound argument. -/
def Device.empty : Device := ⟨fun _ => none, fun _ _ => none⟩

/-- The device with the contents of buffer `h` set. -/
def Device.withBuffer (d : Device) (h : Handle) (contents : List F32) : Device :=
  { d with buffers := fun x => if x = h then some contents else d.buffers x }

/-- The device with argument slot `i` of kernel `k` bound to `v`. -/
def Device.withArg (d : Device) (k : Handle) (i : Nat) (v : ArgValue) : Device :=
  { d with args := fun k1 i1 => if k1 = k ∧ i1 = i then some v else d.args k1 i1 }

/-- The device after kernel `k` has run with global size `globalSize` on the
buffers bound to its slots 0 and 1 with the scalar of slot 2. -/
def Device.run (d : Device) (k : Handle) (globalSize : Nat) : Device :=
  match d.args k 0, d.args k 1, d.args k 2 with
  | some (.mem h1), some (.mem h2), some (.float s) =>
    match d.buffers h1, d.buffers h2 with
    | some first, some second => d.withBuffer h2 (launch first second s globalSize)
    | _, _ => d
  | _, _, _ => d

/-- The effect of a successful call on the device: a buffer creation with
`CL_MEM_COPY_HOST_PTR` seeds the buffer from the host region, an argument
binding fills its slot, a kernel enqueue runs the kernel (the queue is in order
and the only later observer is the blocking read, so the launch is run at
once).  Other calls and failed calls leave the device as it is. -/
def Device.apply (d : Device) (ev : Event) : Device :=
  if ev.resp.status = CL_SUCCESS then
    match ev.call with
    | .createBuffer _ _ copy size host =>
      d.withBuffer ev.resp.handle
        (if copy then host.take (size / 4) else List.replicate (size / 4) 0)
    | .setKernelArg k i v => d.withArg k i v
    | .enqueueNDRangeKernel _ k _ gws => d.run k (gws.headD 0)
    | _ => d
  else d

/-- What a read of `sizeBytes` bytes at `offset` of a buffer returns. -/
def Device.read (d : Device) (buffer : Handle) (offset sizeBytes : Nat) : List F32 :=
  (((d.buffers buffer).getD []).drop (offset / 4)).take (sizeBytes / 4)

/-- The responses of a trace are those of such a runtime: a successful buffer
creation returns a handle not in use, a successful read-back returns the
contents of the buffer. -/
def faithful : Device → List Event → Bool
  | _, [] => true
  | d, ev :: rest =>
    (match ev.call with
      | .createBuffer .. =>
        decide (ev.resp.status = CL_SUCCESS → d.buffers ev.resp.handle = none)
      | .enqueueReadBuffer _ b _ off size =>
        decide (ev.resp.status = CL_SUCCESS → ev.resp.data = d.read b off size)
      | _ => true) && faithful (d.apply ev) rest

/-- The calls that neither change the device nor have a response to compare. -/
def Call.passive : Call → Bool
  | .createBuffer .. => false
  | .setKernelArg .. => false
  | .enqueueNDRangeKernel .. => false
  | .enqueueReadBuffer .. => false
  | _ => true

/-- The values `a[i] + 2 * b[i]` as integers. -/
def expected : List F32 :=
  (List.range testDataSize).map fun i => (23 ^^^ i) + 2 * (42 ^^^ i)

/-! ## Concrete behaviours -/

/-- A successful response that carries nothing. -/
def okResp : Response := ⟨CL_SUCCESS, 1, 0, [], [], []⟩

/-- One platform (handle 7) with one device (handle 9); every call succeeds,
memory is available for every allocation, the created objects get the handles
1 to 6, and the read-back returns `data`. -/
def successWith (data : List F32) : Behaviour where
  platformCount := okResp
  memPlatformIds := true
  platformIds := { okResp with ids := [7] }
  platformNameSize := fun _ => { okResp with count := 3 }
  memPlatformName := fun _ => true
  platformName := fun _ => { okResp with text := ['a', 'b', 'c'] }
  deviceCount := okResp
  memDeviceIds := true
  deviceIds := { okResp with ids := [9] }
  deviceNameSize := fun _ => { okResp with count := 2 }
  memDeviceName := fun _ => true
  deviceName := fun _ => { okResp with text := ['g', 'p'] }
  createContext := { okResp with handle := 1 }
  kernelFile := "kernel source"
  memKernelText := true
  createProgram := { okResp with handle := 2 }
  buildProgram := okResp
  createKernel := { okResp with handle := 3 }
  memA := true
  memB := true
  createBufferA := { okResp with handle := 4 }
  createBufferB := { okResp with handle := 5 }
  createQueue := { okResp with handle := 6 }
  setArg0 := okResp
  setArg1 := okResp
  setArg2 := okResp
  enqueueKernel := okResp
  readBuffer := { okResp with data := data }
  releaseQueue := okResp
  releaseB := okResp
  releaseA := okResp
  releaseKernel := okResp
  releaseProgram := okResp
  releaseContext := okResp

/-- Every call succeeds except the binding of argument slot 0, which returns
`-49` (`CL_INVALID_ARG_INDEX`). -/
def argBindingFails : Behaviour :=
  { successWith [] with setArg0 := { okResp with status := -49 } }

/-- The binding of argument slot 0 is rejected with `-51` (`CL_INVALID_ARG_SIZE`)
and the kernel enqueue then fails with `-52` (`CL_INVALID_KERNEL_ARGS`). -/
def argBindingRejected : Behaviour :=
  { successWith [] with
    setArg0 := { okResp with status := -51 }
    enqueueKernel := { okResp with status := -52 } }

/-- Two platforms (handles 7 and 8), the first with the three devices 9, 10
and 11; every call succeeds. -/
def threeDevices : Behaviour :=
  { successWith [] with
    platformCount := { okResp with count := 2 }
    platformIds := { okResp with ids := [7, 8] }
    deviceCount := { okResp with count := 3 }
    deviceIds := { okResp with ids := [9, 10, 11] } }

/-- The runtime reports no platform. -/
def noPlatform : Behaviour :=
  { successWith [] with platformCount := { okResp with count := 0 } }

/-- The program build returns `-11` (`CL_BUILD_PROGRAM_FAILURE`). -/
def buildFails : Behaviour :=
  { successWith [] with buildProgram := { okResp with status := -11 } }

/-- Every call succeeds except the three argument bindings, which return `-48`
(`CL_INVALID_KERNEL`). -/
def allBindingsFail : Behaviour :=
  { successWith [] with
    setArg0 := { okResp with status := -48 }
    setArg1 := { okResp with status := -48 }
    setArg2 := { okResp with status := -48 } }

/-- The size query for the name of the platform reports `2^63` bytes. -/
def hugePlatformName : Behaviour :=
  { successWith [] with platformNameSize := fun _ => { okResp with count := 2 ^ 63 } }

/-- The size query for the name of the device reports `2^63` bytes. -/
def hugeDeviceName : Behaviour :=
  { successWith [] with deviceNameSize := fun _ => { okResp with count := 2 ^ 63 } }

/-- There is no memory for the vector of platform handles. -/
def noMemoryForPlatformIds : Behaviour :=
  { successWith [] with memPlatformIds := false }

/-! ## Theorems -/

@[simp] theorem bind_run {α β : Type} (m : M α) (f : α → M β) (s : St) :
    (m >>= f) s = match m s with
      | .ok a s1 => f a s1
      | .exit c s1 => .exit c s1
      | .abort s1 => .abort s1 := rfl

@[simp] theorem pure_run {α : Type} (a : α) (s : St) :
    (pure a : M α) s = .ok a s := rfl

@[simp] theorem call_run (c : Call) (r : Response) (s : St) :
    call c r s = .ok r ⟨s.trace ++ [⟨c, r⟩], s.out⟩ := rfl

@[simp] theorem cout_run (l : String) (s : St) :
    cout l s = .ok () ⟨s.trace, s.out ++ [Out.cout l]⟩ := rfl

@[simp] theorem cerr_run (l : String) (s : St) :
    cerr l s = .ok () ⟨s.trace, s.out ++ [Out.cerr l]⟩ := rfl

@[simp] theorem exit_run {α : Type} (c : Int) (s : St) :
    (exit c : M α) s = .exit c s := rfl

@[simp] theorem abort_run {α : Type} (s : St) :
    (abort : M α) s = .abort s := rfl

@[simp] theorem ite_run {α : Type} (c : Prop) [Decidable c] (m1 m2 : M α) (s : St) :
    (if c then m1 else m2) s = if c then m1 s else m2 s := by
  split <;> rfl

theorem CheckError_run (error : Int) (s : St) :
    CheckError error s =
      if error = CL_SUCCESS then .ok () s
      else .exit 1 ⟨s.trace, s.out ++
        [Out.cerr ("OpenCL call failed with error " ++ toString error)]⟩ := by
  unfold CheckError
  split_ifs with h <;> simp_all

theorem allocate_run (available : Bool) (bytes : Nat) (s : St) :
    allocate available bytes s =
      if granted available bytes = true then .ok () s else .abort s := by
  unfold allocate
  split_ifs with h <;> simp_all

theorem firstDenied_ge (ok : Nat → Bool) :
    ∀ k i j, firstDenied ok i k = some j → i ≤ j ∧ j < i + k ∧ ok j = false := by
  intro k
  induction k with
  | zero => intro i j h; exact Option.noConfusion h
  | succ k ih =>
    intro i j h
    unfold firstDenied at h
    by_cases hi : ok i = true
    · rw [if_pos hi] at h
      obtain ⟨h1, h2, h3⟩ := ih (i + 1) j h
      exact ⟨by omega, by omega, h3⟩
    · rw [if_neg hi] at h
      obtain rfl := Option.some.inj h
      exact ⟨le_refl _, by omega, by simpa using hi⟩

theorem firstDenied_none (ok : Nat → Bool) :
    ∀ k i, firstDenied ok i k = none ↔ ∀ j, i ≤ j → j < i + k → ok j = true := by
  intro k
  induction k with
  | zero =>
    intro i
    constructor
    · intro _ j h1 h2; omega
    · intro _; rfl
  | succ k ih =>
    intro i
    unfold firstDenied
    by_cases hi : ok i = true
    · rw [if_pos hi, ih]
      constructor
      · intro h j h1 h2
        by_cases hj : j = i
        · subst hj; exact hi
        · exact h j (by omega) (by omega)
      · intro h j h1 h2
        exact h j (by omega) (by omega)
    · rw [if_neg hi]
      constructor
      · intro h; exact Option.noConfusion h
      · intro h; exact absurd (h i (le_refl _) (by omega)) hi

theorem forLoopFrom_run (body : Nat → M Unit) (ok : Nat → Bool)
    (ev : Nat → List Event) (hd : Nat → List Event) (o : Nat → List Out)
    (hok : ∀ i s, ok i = true → body i s = .ok () ⟨s.trace ++ ev i, s.out ++ o i⟩)
    (hno : ∀ i s, ok i = false → body i s = .abort ⟨s.trace ++ hd i, s.out⟩) :
    ∀ k i s, forLoopFrom body i k s =
      match firstDenied ok i k with
      | none => .ok () ⟨s.trace ++ loopAcc ev i k, s.out ++ loopAcc o i k⟩
      | some j => .abort ⟨s.trace ++ (loopAcc ev i (j - i) ++ hd j),
          s.out ++ loopAcc o i (j - i)⟩ := by
  intro k
  induction k with
  | zero => intro i s; simp [forLoopFrom, loopAcc, firstDenied]
  | succ k ih =>
    intro i s
    by_cases hi : ok i = true
    · simp only [forLoopFrom, bind_run, hok i s hi, ih, firstDenied, if_pos hi]
      rcases hfd : firstDenied ok (i + 1) k with _ | j
      · simp [loopAcc]
      · obtain ⟨h1, -, -⟩ := firstDenied_ge ok k (i + 1) j hfd
        have hji : j - i = (j - (i + 1)) + 1 := by omega
        simp [hji, loopAcc]
    · have hi2 : ok i = false := by simpa using hi
      simp [forLoopFrom, hno i s hi2, firstDenied, hi2, loopAcc]

theorem platformLoop_run (β : Behaviour) (s : St) :
    forLoop β.platformCount.count (fun i => do
      let name ← GetPlatformName (β.platformNameSize i) (β.platformName i)
        (β.memPlatformName i)
        ((fillVec β.platformCount.count β.platformIds.ids 0).getD i 0)
      cout ("\t (" ++ toString (i + 1) ++ ") : " ++ name)) s =
    match firstDenied (platformNameGranted β) 0 β.platformCount.count with
    | none => .ok () ⟨s.trace ++ loopAcc (platformNameEvents β) 0 β.platformCount.count,
        s.out ++ loopAcc (platformNameOut β) 0 β.platformCount.count⟩
    | some j => .abort ⟨s.trace ++ (loopAcc (platformNameEvents β) 0 j ++
          [platformSizeQuery β j]), s.out ++ loopAcc (platformNameOut β) 0 j⟩ := by
  unfold forLoop
  rw [forLoopFrom_run _ (platformNameGranted β) (platformNameEvents β)
    (fun j => [platformSizeQuery β j]) (platformNameOut β)]
  · simp
  · intro i s h
    unfold platformNameGranted at h
    simp [GetPlatformName, allocate_run, h, platformNameEvents, platformNameOut,
      platformIdsOf]
  · intro i s h
    unfold platformNameGranted at h
    simp [GetPlatformName, allocate_run, h, platformSizeQuery, platformIdsOf]

theorem deviceLoop_run (β : Behaviour) (s : St) :
    forLoop β.deviceCount.count (fun i => do
      let name ← GetDeviceName (β.deviceNameSize i) (β.deviceName i)
        (β.memDeviceName i)
        ((fillVec β.deviceCount.count β.deviceIds.ids 0).getD i 0)
      cout ("\t (" ++ toString (i + 1) ++ ") : " ++ name)) s =
    match firstDenied (deviceNameGranted β) 0 β.deviceCount.count with
    | none => .ok () ⟨s.trace ++ loopAcc (deviceNameEvents β) 0 β.deviceCount.count,
        s.out ++ loopAcc (deviceNameOut β) 0 β.deviceCount.count⟩
    | some j => .abort ⟨s.trace ++ (loopAcc (deviceNameEvents β) 0 j ++
          [deviceSizeQuery β j]), s.out ++ loopAcc (deviceNameOut β) 0 j⟩ := by
  unfold forLoop
  rw [forLoopFrom_run _ (deviceNameGranted β) (deviceNameEvents β)
    (fun j => [deviceSizeQuery β j]) (deviceNameOut β)]
  · simp
  · intro i s h
    unfold deviceNameGranted at h
    simp [GetDeviceName, allocate_run, h, deviceNameEvents, deviceNameOut, deviceIdsOf]
  · intro i s h
    unfold deviceNameGranted at h
    simp [GetDeviceName, allocate_run, h, deviceSizeQuery, deviceIdsOf]

theorem main_run (β : Behaviour) :
    (main β).trace = traceOf β ∧
    (main β).exitCode = exitOf β ∧
    (main β).b = (if exitOf β = some 0 then
      some (writeInto hostB (β.readBuffer.data.take testDataSize)) else none) := by
  unfold main mainBody traceOf exitOf
  simp only [bind_run, call_run, platformLoop_run, deviceLoop_run, CreateProgram,
    LoadKernel, allocate_run, CheckError_run, cout_run, cerr_run, exit_run, pure_run,
    ite_run]
  by_cases h1 : β.platformCount.count = 0
  · simp [early, h1, evPlatformCount]
  by_cases h2 : granted β.memPlatformIds (handleSize * β.platformCount.count) = true
  swap
  · simp [early, h1, h2, evPlatformCount]
  rcases h3 : firstDenied (platformNameGranted β) 0 β.platformCount.count with _ | j
  swap
  · simp [early, h1, h2, h3, evPlatformCount, evPlatformIds]
  by_cases h4 : β.deviceCount.count = 0
  · simp [early, h1, h2, h3, h4, evPlatformCount, platformPhase, platformIdsOf]
  by_cases h5 : granted β.memDeviceIds (handleSize * β.deviceCount.count) = true
  swap
  · simp [early, h1, h2, h3, h4, h5, evPlatformCount, platformPhase, platformIdsOf]
  rcases h6 : firstDenied (deviceNameGranted β) 0 β.deviceCount.count with _ | j
  swap
  · simp [early, h1, h2, h3, h4, h5, h6, evPlatformCount, platformPhase, platformIdsOf,
      evDeviceIds]
  have he : early β = none := by simp [early, h1, h2, h3, h4, h5, h6]
  have e : queryTrace β = [] ++ [⟨.getPlatformIDs 0 false true, β.platformCount⟩] ++
      [⟨.getPlatformIDs β.platformCount.count true false, β.platformIds⟩] ++
      loopAcc (platformNameEvents β) 0 β.platformCount.count ++
      [⟨.getDeviceIDs ((fillVec β.platformCount.count β.platformIds.ids 0).getD 0 0)
        .all 0 false true, β.deviceCount⟩] ++
      [⟨.getDeviceIDs ((fillVec β.platformCount.count β.platformIds.ids 0).getD 0 0)
        .all β.deviceCount.count true false, β.deviceIds⟩] ++
      loopAcc (deviceNameEvents β) 0 β.deviceCount.count := by
    simp [queryTrace, evPlatformCount, platformPhase, devicePhase, platformIdsOf]
  simp only [he, if_neg h1, if_pos h2, if_neg h4, if_pos h5, ← e]
  unfold pipelineCalls pipelineExit pipelineEnd pipeline
  have g1 : kernelTextGranted β = granted β.memKernelText β.kernelFile.utf8ByteSize := rfl
  have g2 : vectorAGranted β = granted β.memA (4 * testDataSize) := rfl
  have g3 : vectorBGranted β = granted β.memB (4 * testDataSize) := rfl
  rw [g1, g2, g3]
  by_cases p1 : β.createContext.status = CL_SUCCESS
  swap
  · simp [p1, workEvents, evCreateContext, platformIdsOf,
      deviceIdsOf]
  by_cases p2 : granted β.memKernelText β.kernelFile.utf8ByteSize = true
  swap
  · simp [p1, p2, workEvents, evCreateContext, platformIdsOf,
      deviceIdsOf]
  by_cases p3 : β.createProgram.status = CL_SUCCESS
  swap
  · simp [p1, p2, p3, workEvents, evCreateContext, evCreateProgram, platformIdsOf,
      deviceIdsOf]
  by_cases p4 : β.buildProgram.status = CL_SUCCESS
  swap
  · simp [p1, p2, p3, p4, workEvents, evCreateContext, evCreateProgram, evBuildProgram, platformIdsOf,
      deviceIdsOf]
  by_cases p5 : β.createKernel.status = CL_SUCCESS
  swap
  · simp [p1, p2, p3, p4, p5, workEvents, evCreateContext, evCreateProgram, evBuildProgram, evCreateKernel, platformIdsOf,
      deviceIdsOf]
  by_cases p6 : granted β.memA (4 * testDataSize) = true
  swap
  · simp [p1, p2, p3, p4, p5, p6, workEvents, evCreateContext, evCreateProgram, evBuildProgram, evCreateKernel, platformIdsOf,
      deviceIdsOf]
  by_cases p7 : granted β.memB (4 * testDataSize) = true
  swap
  · simp [p1, p2, p3, p4, p5, p6, p7, workEvents, evCreateContext, evCreateProgram, evBuildProgram, evCreateKernel, platformIdsOf,
      deviceIdsOf]
  by_cases p8 : β.createBufferA.status = CL_SUCCESS
  swap
  · simp [p1, p2, p3, p4, p5, p6, p7, p8, workEvents, evCreateContext, evCreateProgram, evBuildProgram, evCreateKernel, evCreateBufferA, platformIdsOf,
      deviceIdsOf]
  by_cases p9 : β.createBufferB.status = CL_SUCCESS
  swap
  · simp [p1, p2, p3, p4, p5, p6, p7, p8, p9, workEvents, evCreateContext, evCreateProgram, evBuildProgram, evCreateKernel, evCreateBufferA, evCreateBufferB, platformIdsOf,
      deviceIdsOf]
  by_cases p10 : β.createQueue.status = CL_SUCCESS
  swap
  · simp [p1, p2, p3, p4, p5, p6, p7, p8, p9, p10, workEvents, evCreateContext, evCreateProgram, evBuildProgram, evCreateKernel, evCreateBufferA, evCreateBufferB, evCreateQueue, platformIdsOf,
      deviceIdsOf]
  by_cases p11 : β.enqueueKernel.status = CL_SUCCESS
  swap
  · simp [p1, p2, p3, p4, p5, p6, p7, p8, p9, p10, p11, workEvents, evCreateContext, evCreateProgram, evBuildProgram, evCreateKernel, evCreateBufferA, evCreateBufferB, evCreateQueue, evSetArg0, evSetArg1, evSetArg2, evEnqueueKernel, platformIdsOf,
      deviceIdsOf]
  by_cases p12 : β.readBuffer.status = CL_SUCCESS
  swap
  · simp [p1, p2, p3, p4, p5, p6, p7, p8, p9, p10, p11, p12, workEvents, evCreateContext, evCreateProgram, evBuildProgram, evCreateKernel, evCreateBufferA, evCreateBufferB, evCreateQueue, evSetArg0, evSetArg1, evSetArg2, evEnqueueKernel, evReadBuffer, platformIdsOf,
      deviceIdsOf]
  simp [p1, p2, p3, p4, p5, p6, p7, p8, p9, p10, p11, p12, workEvents, releaseEvents, evCreateContext, evCreateProgram, evBuildProgram, evCreateKernel, evCreateBufferA, evCreateBufferB, evCreateQueue, evSetArg0, evSetArg1, evSetArg2, evEnqueueKernel, evReadBuffer, platformIdsOf,
    deviceIdsOf]

theorem mem_loopAcc {α : Type} (f : Nat → List α) (x : α) :
    ∀ k i, x ∈ loopAcc f i k ↔ ∃ j, i ≤ j ∧ j < i + k ∧ x ∈ f j := by
  intro k
  induction k with
  | zero =>
    intro i
    simp only [loopAcc, List.not_mem_nil, false_iff]
    rintro ⟨j, h1, h2, _⟩
    omega
  | succ k ih =>
    intro i
    simp only [loopAcc, List.mem_append, ih]
    constructor
    · rintro (h | ⟨j, h1, h2, h3⟩)
      · exact ⟨i, le_refl i, by omega, h⟩
      · exact ⟨j, by omega, by omega, h3⟩
    · rintro ⟨j, h1, h2, h3⟩
      by_cases hj : j = i
      · subst hj; exact Or.inl h3
      · exact Or.inr ⟨j, by omega, by omega, h3⟩

theorem platformPhase_query (β : Behaviour) :
    ∀ ev ∈ evPlatformCount β :: platformPhase β, ev.call.isQuery = true := by
  intro ev hev
  simp only [evPlatformCount, platformPhase, List.mem_cons, List.mem_append,
    mem_loopAcc, platformNameEvents, List.mem_singleton, List.not_mem_nil,
    or_false] at hev
  rcases hev with rfl | (rfl | ⟨j, -, -, rfl | rfl⟩) | rfl <;> rfl

theorem queryTrace_query (β : Behaviour) :
    ∀ ev ∈ queryTrace β, ev.call.isQuery = true := by
  intro ev hev
  unfold queryTrace at hev
  rw [← List.cons_append, List.mem_append] at hev
  rcases hev with hev | hev
  · exact platformPhase_query β ev hev
  · simp only [devicePhase, List.mem_cons, List.mem_append,
      mem_loopAcc, deviceNameEvents, List.mem_singleton, List.not_mem_nil,
      or_false] at hev
    rcases hev with rfl | ⟨j, -, -, rfl | rfl⟩ <;> rfl

theorem early_query (β : Behaviour) (t : List Event) (e : Option Int)
    (h : early β = some (t, e)) :
    (∀ ev ∈ t, ev.call.isQuery = true) ∧
      ((e = some 1 ∧ (β.platformCount.count = 0 ∨ β.deviceCount.count = 0)) ∨
        e = none) := by
  have hl1 : ∀ j, ∀ ev ∈ loopAcc (platformNameEvents β) 0 j, ev.call.isQuery = true := by
    intro j ev hev
    simp only [mem_loopAcc, platformNameEvents, List.mem_cons, List.not_mem_nil,
      or_false] at hev
    rcases hev with ⟨i, -, -, rfl | rfl⟩ <;> rfl
  have hl2 : ∀ j, ∀ ev ∈ loopAcc (deviceNameEvents β) 0 j, ev.call.isQuery = true := by
    intro j ev hev
    simp only [mem_loopAcc, deviceNameEvents, List.mem_cons, List.not_mem_nil,
      or_false] at hev
    rcases hev with ⟨i, -, -, rfl | rfl⟩ <;> rfl
  have hone : ∀ ev ∈ [evPlatformCount β], ev.call.isQuery = true := by
    intro ev hev
    rw [List.mem_singleton] at hev
    subst hev
    rfl
  unfold early at h
  by_cases h1 : β.platformCount.count = 0
  · rw [if_pos h1] at h
    obtain ⟨rfl, rfl⟩ := Prod.mk.inj (Option.some.inj h)
    exact ⟨hone, Or.inl ⟨rfl, Or.inl h1⟩⟩
  rw [if_neg h1] at h
  by_cases h2 : granted β.memPlatformIds (handleSize * β.platformCount.count) = true
  swap
  · rw [if_neg h2] at h
    obtain ⟨rfl, rfl⟩ := Prod.mk.inj (Option.some.inj h)
    exact ⟨hone, Or.inr rfl⟩
  rw [if_pos h2] at h
  rcases h3 : firstDenied (platformNameGranted β) 0 β.platformCount.count with _ | j
  swap
  · rw [h3] at h
    obtain ⟨rfl, rfl⟩ := Prod.mk.inj (Option.some.inj h)
    refine ⟨?_, Or.inr rfl⟩
    intro ev hev
    simp only [List.mem_cons, List.mem_append, List.not_mem_nil, or_false] at hev
    rcases hev with rfl | rfl | hev | rfl
    · rfl
    · rfl
    · exact hl1 j ev hev
    · rfl
  rw [h3] at h
  simp only at h
  by_cases h4 : β.deviceCount.count = 0
  · rw [if_pos h4] at h
    obtain ⟨rfl, rfl⟩ := Prod.mk.inj (Option.some.inj h)
    exact ⟨platformPhase_query β, Or.inl ⟨rfl, Or.inr h4⟩⟩
  rw [if_neg h4] at h
  by_cases h5 : granted β.memDeviceIds (handleSize * β.deviceCount.count) = true
  swap
  · rw [if_neg h5] at h
    obtain ⟨rfl, rfl⟩ := Prod.mk.inj (Option.some.inj h)
    exact ⟨platformPhase_query β, Or.inr rfl⟩
  rw [if_pos h5] at h
  rcases h6 : firstDenied (deviceNameGranted β) 0 β.deviceCount.count with _ | j
  · rw [h6] at h
    exact Option.noConfusion h
  · rw [h6] at h
    obtain ⟨rfl, rfl⟩ := Prod.mk.inj (Option.some.inj h)
    refine ⟨?_, Or.inr rfl⟩
    intro ev hev
    rw [← List.cons_append, List.mem_append] at hev
    rcases hev with hev | hev
    · exact platformPhase_query β ev hev
    · simp only [List.mem_cons, List.mem_append, List.not_mem_nil, or_false] at hev
      rcases hev with rfl | hev | rfl
      · rfl
      · exact hl2 j ev hev
      · rfl

theorem early_none_iff (β : Behaviour) : early β = none ↔ QueriesDone β := by
  unfold early QueriesDone
  by_cases h1 : β.platformCount.count = 0
  · simp [h1]
  by_cases h2 : granted β.memPlatformIds (handleSize * β.platformCount.count) = true
  swap
  · simp [h1, h2]
  rcases h3 : firstDenied (platformNameGranted β) 0 β.platformCount.count with _ | j
  swap
  · obtain ⟨-, hj, hd⟩ := firstDenied_ge _ _ _ _ h3
    simp only [if_neg h1, if_pos h2]
    constructor
    · intro h; exact Option.noConfusion h
    · intro h
      have := h.2.2.1 j (by omega)
      rw [hd] at this
      exact Bool.noConfusion this
  have h3a : ∀ i, i < β.platformCount.count → platformNameGranted β i = true := by
    intro i hi
    exact (firstDenied_none _ _ _).mp h3 i (Nat.zero_le _) (by omega)
  by_cases h4 : β.deviceCount.count = 0
  · simp [h1, h2, h4]
  by_cases h5 : granted β.memDeviceIds (handleSize * β.deviceCount.count) = true
  swap
  · simp [h1, h2, h4, h5]
  rcases h6 : firstDenied (deviceNameGranted β) 0 β.deviceCount.count with _ | j
  swap
  · obtain ⟨-, hj, hd⟩ := firstDenied_ge _ _ _ _ h6
    simp only [if_neg h1, if_pos h2, if_neg h4, if_pos h5]
    constructor
    · intro h; exact Option.noConfusion h
    · intro h
      have := h.2.2.2.2.2 j (by omega)
      rw [hd] at this
      exact Bool.noConfusion this
  have h6a : ∀ i, i < β.deviceCount.count → deviceNameGranted β i = true := by
    intro i hi
    exact (firstDenied_none _ _ _).mp h6 i (Nat.zero_le _) (by omega)
  simp only [if_neg h1, if_pos h2, if_neg h4, if_pos h5, true_iff]
  exact ⟨h1, h2, h3a, h4, h5, h6a⟩

/-- What the number of pipeline calls says about the statuses and the
allocations, and how it determines the exit code. -/
theorem pipeline_facts (β : Behaviour) :
    1 ≤ pipelineCalls β ∧ pipelineCalls β ≤ 18 ∧
    (1 < pipelineCalls β →
      β.createContext.status = CL_SUCCESS ∧ kernelTextGranted β = true) ∧
    (2 < pipelineCalls β → β.createProgram.status = CL_SUCCESS) ∧
    (3 < pipelineCalls β → β.buildProgram.status = CL_SUCCESS) ∧
    (4 < pipelineCalls β → β.createKernel.status = CL_SUCCESS ∧
      vectorAGranted β = true ∧ vectorBGranted β = true) ∧
    (5 < pipelineCalls β → β.createBufferA.status = CL_SUCCESS) ∧
    (6 < pipelineCalls β → β.createBufferB.status = CL_SUCCESS) ∧
    (7 < pipelineCalls β → β.createQueue.status = CL_SUCCESS ∧ 11 ≤ pipelineCalls β) ∧
    (11 < pipelineCalls β → β.enqueueKernel.status = CL_SUCCESS) ∧
    (12 < pipelineCalls β → β.readBuffer.status = CL_SUCCESS ∧ pipelineCalls β = 18) ∧
    (pipelineExit β = some 0 ↔ pipelineCalls β = 18) ∧
    (β.createContext.status ≠ CL_SUCCESS → pipelineCalls β = 1 ∧ pipelineExit β = some 1) ∧
    (β.createProgram.status ≠ CL_SUCCESS → pipelineCalls β ≤ 2 ∧
      (pipelineCalls β = 2 → pipelineExit β = some 1)) ∧
    (β.buildProgram.status ≠ CL_SUCCESS → pipelineCalls β ≤ 3 ∧
      (pipelineCalls β = 3 → pipelineExit β = some 1)) ∧
    (β.createKernel.status ≠ CL_SUCCESS → pipelineCalls β ≤ 4 ∧
      (pipelineCalls β = 4 → pipelineExit β = some 1)) ∧
    (β.createBufferA.status ≠ CL_SUCCESS → pipelineCalls β ≤ 5 ∧
      (pipelineCalls β = 5 → pipelineExit β = some 1)) ∧
    (β.createBufferB.status ≠ CL_SUCCESS → pipelineCalls β ≤ 6 ∧
      (pipelineCalls β = 6 → pipelineExit β = some 1)) ∧
    (β.createQueue.status ≠ CL_SUCCESS → pipelineCalls β ≤ 7 ∧
      (pipelineCalls β = 7 → pipelineExit β = some 1)) ∧
    (β.enqueueKernel.status ≠ CL_SUCCESS → pipelineCalls β ≤ 11 ∧
      (pipelineCalls β = 11 → pipelineExit β = some 1)) ∧
    (β.readBuffer.status ≠ CL_SUCCESS → pipelineCalls β ≤ 12 ∧
      (pipelineCalls β = 12 → pipelineExit β = some 1)) ∧
    (β.createContext.status = CL_SUCCESS → kernelTextGranted β = true →
      β.createProgram.status = CL_SUCCESS → β.buildProgram.status = CL_SUCCESS →
      β.createKernel.status = CL_SUCCESS → vectorAGranted β = true →
      vectorBGranted β = true → β.createBufferA.status = CL_SUCCESS →
      β.createBufferB.status = CL_SUCCESS → β.createQueue.status = CL_SUCCESS →
      β.enqueueKernel.status = CL_SUCCESS → β.readBuffer.status = CL_SUCCESS →
      pipelineCalls β = 18) ∧
    (pipelineExit β = some 0 ∨ pipelineExit β = some 1 ∨ pipelineExit β = none) ∧
    (pipelineExit β = none → pipelineCalls β = 1 ∨ pipelineCalls β = 4) := by
  by_cases p1 : β.createContext.status = CL_SUCCESS
  swap
  · simp [pipelineCalls, pipelineExit, pipelineEnd, p1]
  by_cases p2 : kernelTextGranted β = true
  swap
  · simp [pipelineCalls, pipelineExit, pipelineEnd, p1, p2]
  by_cases p3 : β.createProgram.status = CL_SUCCESS
  swap
  · simp [pipelineCalls, pipelineExit, pipelineEnd, p1, p2, p3]
  by_cases p4 : β.buildProgram.status = CL_SUCCESS
  swap
  · simp [pipelineCalls, pipelineExit, pipelineEnd, p1, p2, p3, p4]
  by_cases p5 : β.createKernel.status = CL_SUCCESS
  swap
  · simp [pipelineCalls, pipelineExit, pipelineEnd, p1, p2, p3, p4, p5]
  by_cases p6 : vectorAGranted β = true
  swap
  · simp [pipelineCalls, pipelineExit, pipelineEnd, p1, p2, p3, p4, p5, p6]
  by_cases p7 : vectorBGranted β = true
  swap
  · simp [pipelineCalls, pipelineExit, pipelineEnd, p1, p2, p3, p4, p5, p6, p7]
  by_cases p8 : β.createBufferA.status = CL_SUCCESS
  swap
  · simp [pipelineCalls, pipelineExit, pipelineEnd, p1, p2, p3, p4, p5, p6, p7, p8]
  by_cases p9 : β.createBufferB.status = CL_SUCCESS
  swap
  · simp [pipelineCalls, pipelineExit, pipelineEnd, p1, p2, p3, p4, p5, p6, p7, p8, p9]
  by_cases p10 : β.createQueue.status = CL_SUCCESS
  swap
  · simp [pipelineCalls, pipelineExit, pipelineEnd, p1, p2, p3, p4, p5, p6, p7, p8, p9, p10]
  by_cases p11 : β.enqueueKernel.status = CL_SUCCESS
  swap
  · simp [pipelineCalls, pipelineExit, pipelineEnd, p1, p2, p3, p4, p5, p6, p7, p8, p9, p10, p11]
  by_cases p12 : β.readBuffer.status = CL_SUCCESS
  swap
  · simp [pipelineCalls, pipelineExit, pipelineEnd, p1, p2, p3, p4, p5, p6, p7, p8, p9, p10, p11, p12]
  simp [pipelineCalls, pipelineExit, pipelineEnd, p1, p2, p3, p4, p5, p6, p7, p8, p9, p10, p11, p12]

theorem pipelineCalls_pos (β : Behaviour) : 1 ≤ pipelineCalls β := (pipeline_facts β).1

theorem pipelineCalls_le (β : Behaviour) : pipelineCalls β ≤ 18 := (pipeline_facts β).2.1

/-- The eighteen calls of the pipeline by position. -/
theorem pipeline_getElem (β : Behaviour) (i : Nat) (ev : Event)
    (he : (pipeline β)[i]? = some ev) :
    (i = 0 ∧ ev = evCreateContext β) ∨ (i = 1 ∧ ev = evCreateProgram β) ∨
    (i = 2 ∧ ev = evBuildProgram β) ∨ (i = 3 ∧ ev = evCreateKernel β) ∨
    (i = 4 ∧ ev = evCreateBufferA β) ∨ (i = 5 ∧ ev = evCreateBufferB β) ∨
    (i = 6 ∧ ev = evCreateQueue β) ∨ (i = 7 ∧ ev = evSetArg0 β) ∨
    (i = 8 ∧ ev = evSetArg1 β) ∨ (i = 9 ∧ ev = evSetArg2 β) ∨
    (i = 10 ∧ ev = evEnqueueKernel β) ∨ (i = 11 ∧ ev = evReadBuffer β) ∨
    (12 ≤ i ∧ ev.call.isRelease = true) := by
  have hlen : (pipeline β).length = 18 := rfl
  have hi : i < 18 := by
    rw [← hlen]
    exact (List.getElem?_eq_some.mp he).1
  have key : ∀ j (x : Event), (pipeline β)[j]? = some x → (pipeline β)[i]? = some ev →
      j = i → ev = x := by
    intro j x hx he hj
    subst hj
    exact Option.some.inj (he.symm.trans hx)
  interval_cases i
  · exact Or.inl ⟨rfl, key 0 _ rfl he rfl⟩
  · exact Or.inr (Or.inl ⟨rfl, key 1 _ rfl he rfl⟩)
  · exact Or.inr (Or.inr (Or.inl ⟨rfl, key 2 _ rfl he rfl⟩))
  · exact Or.inr (Or.inr (Or.inr (Or.inl ⟨rfl, key 3 _ rfl he rfl⟩)))
  · exact Or.inr (Or.inr (Or.inr (Or.inr (Or.inl ⟨rfl, key 4 _ rfl he rfl⟩))))
  · exact Or.inr (Or.inr (Or.inr (Or.inr (Or.inr (Or.inl ⟨rfl, key 5 _ rfl he rfl⟩)))))
  · exact Or.inr (Or.inr (Or.inr (Or.inr (Or.inr (Or.inr
      (Or.inl ⟨rfl, key 6 _ rfl he rfl⟩))))))
  · exact Or.inr (Or.inr (Or.inr (Or.inr (Or.inr (Or.inr (Or.inr
      (Or.inl ⟨rfl, key 7 _ rfl he rfl⟩)))))))
  · exact Or.inr (Or.inr (Or.inr (Or.inr (Or.inr (Or.inr (Or.inr (Or.inr
      (Or.inl ⟨rfl, key 8 _ rfl he rfl⟩))))))))
  · exact Or.inr (Or.inr (Or.inr (Or.inr (Or.inr (Or.inr (Or.inr (Or.inr (Or.inr
      (Or.inl ⟨rfl, key 9 _ rfl he rfl⟩)))))))))
  · exact Or.inr (Or.inr (Or.inr (Or.inr (Or.inr (Or.inr (Or.inr (Or.inr (Or.inr
      (Or.inr (Or.inl ⟨rfl, key 10 _ rfl he rfl⟩))))))))))
  · exact Or.inr (Or.inr (Or.inr (Or.inr (Or.inr (Or.inr (Or.inr (Or.inr (Or.inr
      (Or.inr (Or.inr (Or.inl ⟨rfl, key 11 _ rfl he rfl⟩)))))))))))
  all_goals
    refine Or.inr (Or.inr (Or.inr (Or.inr (Or.inr (Or.inr (Or.inr (Or.inr (Or.inr
      (Or.inr (Or.inr (Or.inr ⟨by omega, ?_⟩)))))))))))
  · rw [key 12 _ rfl he rfl]; rfl
  · rw [key 13 _ rfl he rfl]; rfl
  · rw [key 14 _ rfl he rfl]; rfl
  · rw [key 15 _ rfl he rfl]; rfl
  · rw [key 16 _ rfl he rfl]; rfl
  · rw [key 17 _ rfl he rfl]; rfl

/-- A call of the trace that is not a query is a call of the pipeline, and the
calls before it are all queries followed by the pipeline calls before it. -/
theorem trace_split (β : Behaviour) (pre post : List Event) (ev : Event)
    (h : (main β).trace = pre ++ ev :: post) (hq : ev.call.isQuery = false) :
    ∃ i, i < pipelineCalls β ∧ (pipeline β)[i]? = some ev ∧
      pre = queryTrace β ++ (pipeline β).take i ∧
      post.length + (i + 1) = pipelineCalls β ∧ early β = none := by
  have hmem : ev ∈ pre ++ ev :: post := by simp
  have hnq : ∀ l : List Event, (∀ x ∈ l, x.call.isQuery = true) → ev ∉ l := by
    intro l hl hx
    have := hl ev hx
    rw [hq] at this
    exact Bool.noConfusion this
  rw [(main_run β).1] at h
  unfold traceOf at h
  rcases hearly : early β with _ | ⟨t, e⟩
  swap
  · rw [hearly] at h
    simp only at h
    rw [← h] at hmem
    exact absurd hmem (hnq _ (early_query β t e hearly).1)
  rw [hearly] at h
  simp only at h
  have hlen : (pipeline β).length = 18 := rfl
  have hk := pipelineCalls_le β
  obtain ⟨a, hpre, hP⟩ : ∃ a, pre = queryTrace β ++ a ∧
      (pipeline β).take (pipelineCalls β) = a ++ ev :: post := by
    rcases List.append_eq_append_iff.mp h with ⟨a, ha, hb⟩ | ⟨c, hc, hd⟩
    · exact ⟨a, ha, hb⟩
    · cases c with
      | nil =>
        refine ⟨[], by simpa using hc.symm, ?_⟩
        simpa using hd.symm
      | cons x c =>
        rw [List.cons_append] at hd
        have hx : ev = x := (List.cons.inj hd).1
        exact absurd (by rw [hc, hx]; simp) (hnq _ (queryTrace_query β))
  have hl : a.length + (post.length + 1) = pipelineCalls β := by
    have := congrArg List.length hP
    rw [List.length_take, List.length_append, List.length_cons, hlen] at this
    omega
  have hget : ((pipeline β).take (pipelineCalls β))[a.length]? = some ev := by
    rw [hP, List.getElem?_append_right (le_refl _)]
    simp
  rw [List.getElem?_take_of_lt (by omega)] at hget
  refine ⟨a.length, by omega, hget, ?_, by omega, rfl⟩
  rw [hpre]
  congr 1
  have := congrArg (List.take a.length) hP
  rw [List.take_take, List.take_left, Nat.min_eq_left (by omega)] at this
  exact this.symm

/-- Every checked call before the last call of the pipeline returned `CL_SUCCESS`. -/
theorem checked_before (β : Behaviour) (i : Nat) (ev : Event)
    (hi : i + 1 < pipelineCalls β) (he : (pipeline β)[i]? = some ev)
    (hc : ev.call.checked = true) : ev.resp.status = CL_SUCCESS := by
  have hrel : ev.call.isRelease = true → False := by
    intro hr
    cases hcall : ev.call <;> rw [hcall] at hc hr <;>
      first | exact Bool.noConfusion hc | exact Bool.noConfusion hr
  obtain ⟨-, -, f1, f2, f3, f4, f5, f6, f7, f11, f12, -⟩ := pipeline_facts β
  rcases pipeline_getElem β i ev he with ⟨hi0, rfl⟩ | ⟨hi0, rfl⟩ | ⟨hi0, rfl⟩ | ⟨hi0, rfl⟩ |
    ⟨hi0, rfl⟩ | ⟨hi0, rfl⟩ | ⟨hi0, rfl⟩ | ⟨hi0, rfl⟩ | ⟨hi0, rfl⟩ | ⟨hi0, rfl⟩ |
    ⟨hi0, rfl⟩ | ⟨hi0, rfl⟩ | ⟨hi0, hr⟩
  · exact (f1 (by omega)).1
  · exact f2 (by omega)
  · exact f3 (by omega)
  · exact (f4 (by omega)).1
  · exact f5 (by omega)
  · exact f6 (by omega)
  · exact (f7 (by omega)).1
  · exact Bool.noConfusion hc
  · exact Bool.noConfusion hc
  · exact Bool.noConfusion hc
  · exact f11 (by omega)
  · exact (f12 (by omega)).1
  · exact (hrel hr).elim

/-- A checked call of the pipeline that is the last call made and did not
return `CL_SUCCESS` ends the process with exit code 1. -/
theorem checked_last (β : Behaviour) (i : Nat) (ev : Event)
    (hi : i + 1 = pipelineCalls β) (he : (pipeline β)[i]? = some ev)
    (hc : ev.call.checked = true) (hs : ev.resp.status ≠ CL_SUCCESS) :
    pipelineExit β = some 1 := by
  have hrel : ev.call.isRelease = true → False := by
    intro hr
    cases hcall : ev.call <;> rw [hcall] at hc hr <;>
      first | exact Bool.noConfusion hc | exact Bool.noConfusion hr
  obtain ⟨-, -, -, -, -, -, -, -, -, -, -, -, g1, g2, g3, g4, g5, g6, g7, g11, g12, -⟩ :=
    pipeline_facts β
  rcases pipeline_getElem β i ev he with ⟨hi0, rfl⟩ | ⟨hi0, rfl⟩ | ⟨hi0, rfl⟩ | ⟨hi0, rfl⟩ |
    ⟨hi0, rfl⟩ | ⟨hi0, rfl⟩ | ⟨hi0, rfl⟩ | ⟨hi0, rfl⟩ | ⟨hi0, rfl⟩ | ⟨hi0, rfl⟩ |
    ⟨hi0, rfl⟩ | ⟨hi0, rfl⟩ | ⟨hi0, hr⟩
  · exact (g1 hs).2
  · exact (g2 hs).2 (by omega)
  · exact (g3 hs).2 (by omega)
  · exact (g4 hs).2 (by omega)
  · exact (g5 hs).2 (by omega)
  · exact (g6 hs).2 (by omega)
  · exact (g7 hs).2 (by omega)
  · exact Bool.noConfusion hc
  · exact Bool.noConfusion hc
  · exact Bool.noConfusion hc
  · exact (g11 hs).2 (by omega)
  · exact (g12 hs).2 (by omega)
  · exact (hrel hr).elim

theorem completes_iff (β : Behaviour) :
    Completes β ↔ early β = none ∧ pipelineCalls β = 18 := by
  obtain ⟨-, -, f1, f2, f3, f4, f5, f6, f7, f11, f12, -, -, -, -, -, -, -, -, -, -, hall,
    -⟩ := pipeline_facts β
  rw [early_none_iff]
  constructor
  · rintro ⟨hq, c1, a1, c2, c3, c4, a2, a3, c5, c6, c7, c8, c9⟩
    exact ⟨hq, hall c1 a1 c2 c3 c4 a2 a3 c5 c6 c7 c8 c9⟩
  · rintro ⟨hq, hk⟩
    exact ⟨hq, (f1 (by omega)).1, (f1 (by omega)).2, f2 (by omega), f3 (by omega),
      (f4 (by omega)).1, (f4 (by omega)).2.1, (f4 (by omega)).2.2, f5 (by omega),
      f6 (by omega), (f7 (by omega)).1, f11 (by omega), (f12 (by omega)).1⟩

theorem exitOf_zero_iff (β : Behaviour) : exitOf β = some 0 ↔ Completes β := by
  rw [completes_iff]
  unfold exitOf
  rcases hearly : early β with _ | ⟨t, e⟩
  · simp only [true_and]
    exact (pipeline_facts β).2.2.2.2.2.2.2.2.2.2.2.1
  · constructor
    · intro h
      have h2 : e = some 0 := h
      rcases (early_query β t e hearly).2 with ⟨h1, -⟩ | h1 <;> rw [h1] at h2
      · exact absurd (Option.some.inj h2) (by decide)
      · exact Option.noConfusion h2
    · rintro ⟨h, -⟩
      exact Option.noConfusion h

/-- Every call of the trace is a query or one of the first `pipelineCalls` calls
of the pipeline. -/
theorem mem_trace (β : Behaviour) (ev : Event) (h : ev ∈ (main β).trace) :
    ev.call.isQuery = true ∨
      (early β = none ∧ ∃ i, i < pipelineCalls β ∧ (pipeline β)[i]? = some ev) := by
  by_cases hq : ev.call.isQuery = true
  · exact Or.inl hq
  · obtain ⟨pre, post, hsplit⟩ := List.append_of_mem h
    obtain ⟨i, hi, he, -, -, h1⟩ :=
      trace_split β pre post ev hsplit (by simpa using hq)
    exact Or.inr ⟨h1, i, hi, he⟩

/-- The trace of a run that reaches context creation. -/
theorem trace_of_queriesDone (β : Behaviour) (h : early β = none) :
    (main β).trace = queryTrace β ++ (pipeline β).take (pipelineCalls β) := by
  rw [(main_run β).1, traceOf, h]

theorem eq_take_cons_drop {α : Type} (l : List α) (i : Nat) (x : α)
    (h : l[i]? = some x) : l = l.take i ++ x :: l.drop (i + 1) := by
  obtain ⟨hi, hx⟩ := List.getElem?_eq_some.mp h
  rw [← hx, List.getElem_cons_drop l i hi, List.take_append_drop]


theorem firstDenied_zero (ok : Nat → Bool) (k : Nat) :
    firstDenied ok 0 k = none ↔ ∀ i, i < k → ok i = true := by
  rw [firstDenied_none]
  constructor
  · intro h i hi; exact h i (Nat.zero_le _) (by omega)
  · intro h i _ hi; exact h i (by omega)

/-! ## The claims -/

/-- C8. `CheckError` terminates the process if and only if its status is not
`CL_SUCCESS`: on any other status it prints the numeric code to `std::cerr` and
exits with code 1 (no value is returned to the caller, the trace is untouched);
on `CL_SUCCESS` it returns with the state unchanged. -/
theorem CheckError_terminates_iff (error : Int) (s : St) :
    ((∃ code s1, CheckError error s = .exit code s1) ↔ error ≠ CL_SUCCESS) ∧
    (error ≠ CL_SUCCESS → CheckError error s = .exit 1 ⟨s.trace, s.out ++
      [Out.cerr ("OpenCL call failed with error " ++ toString error)]⟩) ∧
    (error = CL_SUCCESS → CheckError error s = .ok () s) := by
  rw [CheckError_run]
  by_cases h : error = CL_SUCCESS <;> simp [h]

/-- C4. When the platform count query leaves a count of zero, `main` prints
"No OpenCL platform found", exits with code 1, and the platform count query is
the only runtime call of the trace. -/
theorem main_no_platform (β : Behaviour) (h : β.platformCount.count = 0) :
    (main β).exitCode = some 1 ∧
    (main β).out = [Out.cerr "No OpenCL platform found"] ∧
    (main β).trace = [⟨.getPlatformIDs 0 false true, β.platformCount⟩] := by
  unfold main mainBody
  simp [h]

theorem main_no_platform_witness :
    (main noPlatform).exitCode = some 1 ∧
    (main noPlatform).out = [Out.cerr "No OpenCL platform found"] ∧
    (main noPlatform).trace = [⟨.getPlatformIDs 0 false true, noPlatform.platformCount⟩] :=
  main_no_platform noPlatform rfl

/-- A platform name of `2^63` bytes: the string cannot be resized, the process
aborts after three runtime calls and no context is created. -/
theorem hugePlatformName_aborts :
    (main hugePlatformName).exitCode = none ∧
    (main hugePlatformName).trace.map (fun ev => ev.call) =
      [.getPlatformIDs 0 false true, .getPlatformIDs 1 true false,
       .getPlatformInfo 7 0 false true] := by
  decide

/-- A device name of `2^63` bytes: the process aborts after seven runtime
calls, before context creation. -/
theorem hugeDeviceName_aborts :
    (main hugeDeviceName).exitCode = none ∧
    (main hugeDeviceName).trace.map (fun ev => ev.call) =
      [.getPlatformIDs 0 false true, .getPlatformIDs 1 true false,
       .getPlatformInfo 7 0 false true, .getPlatformInfo 7 3 true false,
       .getDeviceIDs 7 .all 0 false true, .getDeviceIDs 7 .all 1 true false,
       .getDeviceInfo 9 0 false true] := by
  decide

/-- No memory for the vector of platform handles: the process aborts after the
count query. -/
theorem noMemoryForPlatformIds_aborts :
    (main noMemoryForPlatformIds).exitCode = none ∧
    (main noMemoryForPlatformIds).trace.map (fun ev => ev.call) =
      [.getPlatformIDs 0 false true] := by
  decide

/-- C1 as stated fails: the binding of argument slot 0 reports a non-success
status, the call is in the trace, and the exit code is 0. -/
theorem main_exit_code_counterexample :
    argBindingFails.setArg0.status ≠ CL_SUCCESS ∧
    (⟨.setKernelArg 3 0 (.mem 4), argBindingFails.setArg0⟩ : Event) ∈
      (main argBindingFails).trace ∧
    (main argBindingFails).exitCode = some 0 := by
  have hc : Completes argBindingFails := by decide
  obtain ⟨he, hk⟩ := (completes_iff _).mp hc
  refine ⟨by decide, ?_, ?_⟩
  · rw [trace_of_queriesDone _ he, hk]
    apply List.mem_append_right
    exact List.getElem?_mem (show (List.take 18 (pipeline argBindingFails))[7]? = _ from rfl)
  · rw [(main_run argBindingFails).2.1]
    exact (exitOf_zero_iff _).mpr hc

/-- C1 amended. For every behaviour of the runtime the exit code of `main` is
decided by the first of these, in program order: no platform found (1); the
vector of platform handles or a platform name string not allocated (abort, no
exit code); no device found (1); the vector of device handles or a device name
string not allocated (abort); context creation fails (1); the kernel text not
allocated (abort); program creation, build or kernel creation fails (1); a test
vector not allocated (abort); a buffer creation, queue creation, kernel enqueue
or read-back fails (1).  When none of them happens the exit code is 0.  The
statuses of the argument-binding calls do not enter. -/
theorem main_exit_code (β : Behaviour) :
    (main β).exitCode =
      if β.platformCount.count = 0 then some 1
      else if ¬ (granted β.memPlatformIds (handleSize * β.platformCount.count) = true ∧
          ∀ i, i < β.platformCount.count → platformNameGranted β i = true) then none
      else if β.deviceCount.count = 0 then some 1
      else if ¬ (granted β.memDeviceIds (handleSize * β.deviceCount.count) = true ∧
          ∀ i, i < β.deviceCount.count → deviceNameGranted β i = true) then none
      else if β.createContext.status ≠ CL_SUCCESS then some 1
      else if kernelTextGranted β = false then none
      else if β.createProgram.status ≠ CL_SUCCESS ∨ β.buildProgram.status ≠ CL_SUCCESS ∨
          β.createKernel.status ≠ CL_SUCCESS then some 1
      else if vectorAGranted β = false ∨ vectorBGranted β = false then none
      else if β.createBufferA.status ≠ CL_SUCCESS ∨ β.createBufferB.status ≠ CL_SUCCESS ∨
          β.createQueue.status ≠ CL_SUCCESS ∨ β.enqueueKernel.status ≠ CL_SUCCESS ∨
          β.readBuffer.status ≠ CL_SUCCESS then some 1
      else some 0 := by
  rw [(main_run β).2.1]
  unfold exitOf early
  by_cases h1 : β.platformCount.count = 0
  · simp [h1]
  by_cases h2 : granted β.memPlatformIds (handleSize * β.platformCount.count) = true
  swap
  · simp [h1, h2]
  by_cases h3 : ∀ i, i < β.platformCount.count → platformNameGranted β i = true
  swap
  · rcases h3f : firstDenied (platformNameGranted β) 0 β.platformCount.count with _ | j
    · exact absurd ((firstDenied_zero _ _).mp h3f) h3
    · rw [if_neg h1, if_pos h2, if_neg h1, if_pos (fun h => h3 h.2)]
  have h3f := (firstDenied_zero _ _).mpr h3
  by_cases h4 : β.deviceCount.count = 0
  · rw [if_neg h1, if_pos h2, h3f]
    simp only
    rw [if_pos h4, if_neg h1, if_neg (not_not.mpr ⟨h2, h3⟩), if_pos h4]
  by_cases h5 : granted β.memDeviceIds (handleSize * β.deviceCount.count) = true
  swap
  · rw [if_neg h1, if_pos h2, h3f]
    simp only
    rw [if_neg h4, if_neg h5, if_neg h1, if_neg (not_not.mpr ⟨h2, h3⟩), if_neg h4,
      if_pos (fun h => h5 h.1)]
  by_cases h6 : ∀ i, i < β.deviceCount.count → deviceNameGranted β i = true
  swap
  · rcases h6f : firstDenied (deviceNameGranted β) 0 β.deviceCount.count with _ | j
    · exact absurd ((firstDenied_zero _ _).mp h6f) h6
    · rw [if_neg h1, if_pos h2, h3f]
      simp only
      rw [if_neg h4, if_pos h5, if_neg h1, if_neg (not_not.mpr ⟨h2, h3⟩), if_neg h4,
        if_pos (fun h => h6 h.2)]
  have h6f := (firstDenied_zero _ _).mpr h6
  rw [if_neg h1, if_pos h2, h3f]
  simp only
  rw [if_neg h4, if_pos h5, h6f]
  simp only
  rw [if_neg h1, if_neg (not_not.mpr ⟨h2, h3⟩), if_neg h4, if_neg (not_not.mpr ⟨h5, h6⟩)]
  unfold pipelineExit pipelineEnd
  by_cases p1 : β.createContext.status = CL_SUCCESS
  swap
  · simp [p1]
  by_cases p2 : kernelTextGranted β = true
  swap
  · simp [p1, p2]
  by_cases p3 : β.createProgram.status = CL_SUCCESS
  swap
  · simp [p1, p2, p3]
  by_cases p4 : β.buildProgram.status = CL_SUCCESS
  swap
  · simp [p1, p2, p3, p4]
  by_cases p5 : β.createKernel.status = CL_SUCCESS
  swap
  · simp [p1, p2, p3, p4, p5]
  by_cases p6 : vectorAGranted β = true
  swap
  · simp [p1, p2, p3, p4, p5, p6]
  by_cases p7 : vectorBGranted β = true
  swap
  · simp [p1, p2, p3, p4, p5, p6, p7]
  by_cases p8 : β.createBufferA.status = CL_SUCCESS
  swap
  · simp [p1, p2, p3, p4, p5, p6, p7, p8]
  by_cases p9 : β.createBufferB.status = CL_SUCCESS
  swap
  · simp [p1, p2, p3, p4, p5, p6, p7, p8, p9]
  by_cases p10 : β.createQueue.status = CL_SUCCESS
  swap
  · simp [p1, p2, p3, p4, p5, p6, p7, p8, p9, p10]
  by_cases p11 : β.enqueueKernel.status = CL_SUCCESS
  swap
  · simp [p1, p2, p3, p4, p5, p6, p7, p8, p9, p10, p11]
  by_cases p12 : β.readBuffer.status = CL_SUCCESS
  swap
  · simp [p1, p2, p3, p4, p5, p6, p7, p8, p9, p10, p11, p12]
  simp [p1, p2, p3, p4, p5, p6, p7, p8, p9, p10, p11, p12]

/-- C5. When the program build returns a status other than `CL_SUCCESS`, the
trace has no buffer creation call and no queue creation call, and the process
exits with code 1; the one other outcome is that the build call was never made
because an allocation before it was refused and the process aborted. -/
theorem build_failure_creates_nothing (β : Behaviour)
    (h : β.buildProgram.status ≠ CL_SUCCESS) :
    ((main β).exitCode = some 1 ∨
      ((main β).exitCode = none ∧
        ∀ ev ∈ (main β).trace, ∀ p n d, ev.call ≠ .buildProgram p n d)) ∧
    ((∃ ev ∈ (main β).trace, ∃ p n d, ev.call = .buildProgram p n d) →
      (main β).exitCode = some 1) ∧
    ∀ ev ∈ (main β).trace, ev.call.isCreateBuffer = false ∧ ev.call.isCreateQueue = false := by
  have hf := pipeline_facts β
  have hk : pipelineCalls β ≤ 3 := (hf.2.2.2.2.2.2.2.2.2.2.2.2.2.2.1 h).1
  have htri := hf.2.2.2.2.2.2.2.2.2.2.2.2.2.2.2.2.2.2.2.2.2.2.1
  have hnone := hf.2.2.2.2.2.2.2.2.2.2.2.2.2.2.2.2.2.2.2.2.2.2.2
  have hzero := hf.2.2.2.2.2.2.2.2.2.2.2.1
  clear hf
  have hbuild : ∀ ev ∈ (main β).trace, ∀ p n d, ev.call = .buildProgram p n d →
      early β = none ∧ pipelineCalls β = 3 := by
    intro ev hev p n d hcall
    rcases mem_trace β ev hev with hq | ⟨he0, i, hi, he⟩
    · rw [hcall] at hq
      exact Bool.noConfusion hq
    · refine ⟨he0, ?_⟩
      rcases pipeline_getElem β i ev he with ⟨hi0, rfl⟩ | ⟨hi0, rfl⟩ | ⟨hi0, rfl⟩ |
      ⟨hi0, rfl⟩ | ⟨hi0, rfl⟩ | ⟨hi0, rfl⟩ | ⟨hi0, rfl⟩ | ⟨hi0, rfl⟩ | ⟨hi0, rfl⟩ |
      ⟨hi0, rfl⟩ | ⟨hi0, rfl⟩ | ⟨hi0, rfl⟩ | ⟨hi0, hr⟩
      all_goals first
        | omega
        | exact Call.noConfusion hcall
  have hexit : (main β).exitCode = some 1 ∨
      ((main β).exitCode = none ∧
        ∀ ev ∈ (main β).trace, ∀ p n d, ev.call ≠ .buildProgram p n d) := by
    rw [(main_run β).2.1]
    unfold exitOf
    rcases hearly : early β with _ | ⟨t, e⟩
    · simp only
      rcases htri with h0 | h1 | hn
      · have := hzero.mp h0
        omega
      · exact Or.inl h1
      · refine Or.inr ⟨hn, ?_⟩
        intro ev hev p n d hcall
        have := (hbuild ev hev p n d hcall).2
        have := hnone hn
        omega
    · simp only
      rcases (early_query β t e hearly).2 with ⟨h1, -⟩ | hn
      · exact Or.inl h1
      · refine Or.inr ⟨hn, ?_⟩
        intro ev hev p n d hcall
        have := (hbuild ev hev p n d hcall).1
        rw [hearly] at this
        exact Option.noConfusion this
  refine ⟨hexit, ?_, ?_⟩
  · rintro ⟨ev, hev, p, n, d, hcall⟩
    rcases hexit with h1 | ⟨-, hn⟩
    · exact h1
    · exact absurd hcall (hn ev hev p n d)
  · intro ev hev
    rcases mem_trace β ev hev with hq | ⟨-, i, hi, he⟩
    · cases hcall : ev.call <;> rw [hcall] at hq <;>
        first | exact ⟨rfl, rfl⟩ | exact Bool.noConfusion hq
    · rcases pipeline_getElem β i ev he with ⟨hi0, rfl⟩ | ⟨hi0, rfl⟩ | ⟨hi0, rfl⟩ |
      ⟨hi0, rfl⟩ | ⟨hi0, rfl⟩ | ⟨hi0, rfl⟩ | ⟨hi0, rfl⟩ | ⟨hi0, rfl⟩ | ⟨hi0, rfl⟩ |
      ⟨hi0, rfl⟩ | ⟨hi0, rfl⟩ | ⟨hi0, rfl⟩ | ⟨hi0, hr⟩
      all_goals first | omega | exact ⟨rfl, rfl⟩

theorem build_failure_creates_nothing_witness :
    (main buildFails).exitCode = some 1 ∧
    ∀ ev ∈ (main buildFails).trace,
      ev.call.isCreateBuffer = false ∧ ev.call.isCreateQueue = false :=
  ⟨(build_failure_creates_nothing buildFails (by decide)).1.resolve_right
      (fun h => absurd h.1 (by rw [(main_run buildFails).2.1]; decide)),
    (build_failure_creates_nothing buildFails (by decide)).2.2⟩

/-- The calls of a trace prefix made of the queries and the first `n` pipeline
calls. -/
theorem mem_prefix (β : Behaviour) (n : Nat) (ev : Event)
    (h : ev ∈ queryTrace β ++ (pipeline β).take n) :
    ev.call.isQuery = true ∨ ∃ i, i < n ∧ (pipeline β)[i]? = some ev := by
  rcases List.mem_append.mp h with hq | hp
  · exact Or.inl (queryTrace_query β ev hq)
  · obtain ⟨i, hi⟩ := List.mem_iff_getElem?.mp hp
    have hlt : i < n := by
      have := (List.getElem?_eq_some.mp hi).1
      rw [List.length_take] at this
      omega
    rw [List.getElem?_take_of_lt hlt] at hi
    exact Or.inr ⟨i, hlt, hi⟩

/-- C3 as stated fails: every call before the binding of argument slot 0
succeeds, that binding returns a non-success status, and `main` goes on to make
three more runtime calls. -/
theorem trace_ends_at_failure_counterexample :
    ∃ pre post, (main argBindingRejected).trace =
        pre ++ (⟨.setKernelArg 3 0 (.mem 4), argBindingRejected.setArg0⟩ : Event) :: post ∧
      (∀ ev ∈ pre, ev.resp.status = CL_SUCCESS) ∧
      argBindingRejected.setArg0.status ≠ CL_SUCCESS ∧ post.length = 3 := by
  have he : early argBindingRejected = none := (early_none_iff _).mpr (by decide)
  have hk : pipelineCalls argBindingRejected = 11 := by decide
  refine ⟨queryTrace argBindingRejected ++ (pipeline argBindingRejected).take 7,
    ((pipeline argBindingRejected).take 11).drop 8, ?_, ?_, by decide, rfl⟩
  · rw [trace_of_queriesDone _ he, hk, List.append_assoc]
    rfl
  · intro ev hev
    rcases List.mem_append.mp hev with hq | hp
    · simp only [queryTrace, evPlatformCount, platformPhase, devicePhase, List.mem_cons,
        List.mem_append, mem_loopAcc, platformNameEvents, deviceNameEvents,
        List.mem_singleton, List.not_mem_nil, or_false] at hq
      rcases hq with rfl | ((rfl | ⟨j, -, -, rfl | rfl⟩) | rfl) | rfl |
        ⟨j, -, -, rfl | rfl⟩ <;> rfl
    · obtain ⟨n, hn⟩ := List.mem_iff_getElem?.mp hp
      have hlt : n < 7 := by
        have := (List.getElem?_eq_some.mp hn).1
        rw [List.length_take] at this
        omega
      rw [List.getElem?_take_of_lt hlt] at hn
      rcases pipeline_getElem argBindingRejected n ev hn with ⟨hi0, rfl⟩ | ⟨hi0, rfl⟩ | ⟨hi0, rfl⟩ |
      ⟨hi0, rfl⟩ | ⟨hi0, rfl⟩ | ⟨hi0, rfl⟩ | ⟨hi0, rfl⟩ | ⟨hi0, rfl⟩ | ⟨hi0, rfl⟩ |
      ⟨hi0, rfl⟩ | ⟨hi0, rfl⟩ | ⟨hi0, rfl⟩ | ⟨hi0, hr⟩
      all_goals first | rfl | omega

/-- C3 amended. The statuses `main` checks are those of context creation,
program creation, build, kernel creation, buffer creation, queue creation,
kernel enqueue and read-back (`Call.checked`; the enumeration and
argument-binding calls are not among them): for every behaviour of the
runtime, a call of one of these kinds that returns a status other than
`CL_SUCCESS` is the last call of the trace, and the exit code is then 1. -/
theorem checked_failure_ends_trace (β : Behaviour) (pre post : List Event) (ev : Event)
    (h : (main β).trace = pre ++ ev :: post) (hc : ev.call.checked = true)
    (hs : ev.resp.status ≠ CL_SUCCESS) :
    post = [] ∧ (main β).exitCode = some 1 := by
  have hq : ev.call.isQuery = false := by
    cases hcall : ev.call <;> rw [hcall] at hc <;>
      first | rfl | exact Bool.noConfusion hc
  obtain ⟨i, hi, he, -, hlen, hearly⟩ := trace_split β pre post ev h hq
  have hpost : post = [] := by
    by_contra hne
    have : 0 < post.length := List.length_pos.mpr hne
    exact hs (checked_before β i ev (by omega) he hc)
  refine ⟨hpost, ?_⟩
  rw [(main_run β).2.1]
  unfold exitOf
  rw [hearly]
  rw [hpost] at hlen
  exact checked_last β i ev (by simpa using hlen) he hc hs

theorem checked_failure_ends_trace_witness :
    ((main buildFails).trace.drop 11 = [] ∧ (main buildFails).exitCode = some 1) :=
  checked_failure_ends_trace buildFails ((main buildFails).trace.take 10)
    ((main buildFails).trace.drop 11)
    ⟨.buildProgram 2 1 [9], buildFails.buildProgram⟩
    (by
      rw [(main_run buildFails).1]
      decide)
    rfl (by decide)

/-- C6 as stated fails: all three argument bindings return a non-success
status, so no argument slot of the kernel is bound (the eighteen calls before
the enqueue hold no successful binding call, and they leave the three slots of
the device empty), and `main` still enqueues the kernel and exits with code 0. -/
theorem calls_in_order_counterexample :
    (main allBindingsFail).trace =
      (main allBindingsFail).trace.take 18 ++
        (⟨.enqueueNDRangeKernel 6 3 1 [testDataSize, 0, 0],
          allBindingsFail.enqueueKernel⟩ : Event) ::
        (main allBindingsFail).trace.drop 19 ∧
    (∀ c ∈ (main allBindingsFail).trace.take 18, ∀ slot v,
      c.call = .setKernelArg 3 slot v → c.resp.status ≠ CL_SUCCESS) ∧
    ¬ ArgBound ((main allBindingsFail).trace.take 18) 3 0 ∧
    ¬ Requirement ((main allBindingsFail).trace.take 18)
      (.enqueueNDRangeKernel 6 3 1 [testDataSize, 0, 0]) ∧
    (∀ slot, slot < 3 →
      (((main allBindingsFail).trace.take 18).foldl Device.apply Device.empty).args 3 slot =
        none) ∧
    (main allBindingsFail).exitCode = some 0 := by
  have hc : Completes allBindingsFail := by decide
  obtain ⟨he, hk⟩ := (completes_iff _).mp hc
  have htr := trace_of_queriesDone _ he
  rw [hk] at htr
  have hpre : (main allBindingsFail).trace.take 18 =
      queryTrace allBindingsFail ++ (pipeline allBindingsFail).take 10 := by
    rw [htr]
    rfl
  have hfail : ∀ c ∈ (main allBindingsFail).trace.take 18, ∀ slot v,
      c.call = .setKernelArg 3 slot v → c.resp.status ≠ CL_SUCCESS := by
    intro c hmem slot v hcall
    rw [hpre] at hmem
    rcases mem_prefix _ _ _ hmem with hq | ⟨i, hi, hget⟩
    · rw [hcall] at hq
      exact Bool.noConfusion hq
    · rcases pipeline_getElem allBindingsFail i c hget with ⟨hi0, rfl⟩ | ⟨hi0, rfl⟩ | ⟨hi0, rfl⟩ |
      ⟨hi0, rfl⟩ | ⟨hi0, rfl⟩ | ⟨hi0, rfl⟩ | ⟨hi0, rfl⟩ | ⟨hi0, rfl⟩ | ⟨hi0, rfl⟩ |
      ⟨hi0, rfl⟩ | ⟨hi0, rfl⟩ | ⟨hi0, rfl⟩ | ⟨hi0, hr⟩
      all_goals first
        | omega
        | exact Call.noConfusion hcall
        | decide
  have hnot : ¬ ArgBound ((main allBindingsFail).trace.take 18) 3 0 := by
    rintro ⟨c, hmem, ⟨v, hcall⟩, hs⟩
    exact hfail c hmem 0 v hcall hs
  refine ⟨?_, hfail, hnot, fun h => hnot h.1, ?_, ?_⟩
  · exact eq_take_cons_drop _ 18 _ (by rw [(main_run _).1]; rfl)
  · intro slot hslot
    rw [(main_run _).1]
    interval_cases slot <;> rfl
  · rw [(main_run _).2.1]
    exact (exitOf_zero_iff _).mpr hc

/-- C6 amended. In every trace of `main`, for every behaviour of the runtime,
each call has its requirement met by the calls before it: a program, buffer or
queue creation call comes after a context creation that returned `CL_SUCCESS`
and passes the handle that creation returned; a kernel enqueue comes after a
binding call has been made for each of the slots 0, 1 and 2 of the same kernel
(whatever status those calls returned); a read-back comes after a kernel
enqueue that returned `CL_SUCCESS` on the same queue. -/
theorem calls_in_order (β : Behaviour) (pre post : List Event) (ev : Event)
    (h : (main β).trace = pre ++ ev :: post) : IssuedRequirement pre ev.call := by
  by_cases hq : ev.call.isQuery = true
  · cases hcall : ev.call <;> rw [hcall] at hq <;>
      first | exact trivial | exact Bool.noConfusion hq
  obtain ⟨i, hi, he, hpre, -, -⟩ := trace_split β pre post ev h (by simpa using hq)
  have hctx : 1 ≤ i → ContextCreated pre β.createContext.handle := by
    intro h1
    refine ⟨evCreateContext β, ?_, ⟨_, _, _, rfl⟩,
      checked_before β 0 _ (by omega) rfl rfl, rfl⟩
    rw [hpre]
    apply List.mem_append_right
    apply List.getElem?_mem (n := 0)
    rw [List.getElem?_take_of_lt (by omega)]
    rfl
  have hmem : ∀ j x, j < i → (pipeline β)[j]? = some x → x ∈ pre := by
    intro j x hj hx
    rw [hpre]
    apply List.mem_append_right
    apply List.getElem?_mem (n := j)
    rw [List.getElem?_take_of_lt hj]
    exact hx
  rcases pipeline_getElem β i ev he with ⟨hi0, rfl⟩ | ⟨hi0, rfl⟩ | ⟨hi0, rfl⟩ |
      ⟨hi0, rfl⟩ | ⟨hi0, rfl⟩ | ⟨hi0, rfl⟩ | ⟨hi0, rfl⟩ | ⟨hi0, rfl⟩ | ⟨hi0, rfl⟩ |
      ⟨hi0, rfl⟩ | ⟨hi0, rfl⟩ | ⟨hi0, rfl⟩ | ⟨hi0, hr⟩
  · exact trivial
  · exact hctx (by omega)
  · exact trivial
  · exact trivial
  · exact hctx (by omega)
  · exact hctx (by omega)
  · exact hctx (by omega)
  · exact trivial
  · exact trivial
  · exact trivial
  · exact ⟨⟨evSetArg0 β, hmem 7 _ (by omega) rfl, _, rfl⟩,
      ⟨evSetArg1 β, hmem 8 _ (by omega) rfl, _, rfl⟩,
      ⟨evSetArg2 β, hmem 9 _ (by omega) rfl, _, rfl⟩⟩
  · exact ⟨evEnqueueKernel β, hmem 10 _ (by omega) rfl, ⟨_, _, _, rfl⟩,
      checked_before β 10 _ (by omega) rfl rfl⟩
  · cases hcall : ev.call <;> rw [hcall] at hr <;>
      first | exact trivial | exact Bool.noConfusion hr

theorem calls_in_order_witness :
    IssuedRequirement ((main allBindingsFail).trace.take 18)
      (Call.enqueueNDRangeKernel 6 3 1 [testDataSize, 0, 0]) :=
  calls_in_order allBindingsFail ((main allBindingsFail).trace.take 18)
    ((main allBindingsFail).trace.drop 19)
    ⟨.enqueueNDRangeKernel 6 3 1 [testDataSize, 0, 0], allBindingsFail.enqueueKernel⟩
    (eq_take_cons_drop _ 18 _ (by rw [(main_run _).1]; rfl))

/-- C10. When `main` exits with code 0, the trace ends with the read-back
followed by exactly six release calls, no release call comes before the
read-back, and the released objects are the six created objects (context,
program, kernel, buffer seeded from `a`, buffer seeded from `b`, queue) in
reverse order of creation; when `main` ends in any other way, the trace has no
release call. -/
theorem releases_reverse_creation (β : Behaviour) :
    ((main β).exitCode = some 0 →
      ∃ pre rels, (main β).trace = pre ++ evReadBuffer β :: rels ∧
        (∀ ev ∈ pre, ev.call.isRelease = false) ∧
        pre.filterMap Event.creates =
          [(.context, β.createContext.handle), (.program, β.createProgram.handle),
           (.kernel, β.createKernel.handle), (.buffer, β.createBufferA.handle),
           (.buffer, β.createBufferB.handle), (.queue, β.createQueue.handle)] ∧
        rels.map (fun ev => ev.call.releases) =
          (pre.filterMap Event.creates).reverse.map some) ∧
    ((main β).exitCode ≠ some 0 → ∀ ev ∈ (main β).trace, ev.call.isRelease = false) := by
  have hqr : ∀ ev : Event, ev.call.isQuery = true → ev.call.isRelease = false := by
    intro ev hq
    cases hcall : ev.call <;> rw [hcall] at hq <;>
      first | rfl | exact Bool.noConfusion hq
  have hqc : ∀ ev : Event, ev.call.isQuery = true → ev.creates = none := by
    intro ev hq
    unfold Event.creates
    cases hcall : ev.call <;> rw [hcall] at hq <;>
      first | rfl | exact Bool.noConfusion hq
  rw [(main_run β).2.1, exitOf_zero_iff, completes_iff]
  constructor
  · rintro ⟨hearly, hk⟩
    refine ⟨queryTrace β ++ (workEvents β).take 11, releaseEvents β, ?_, ?_, ?_, ?_⟩
    · rw [trace_of_queriesDone β hearly, hk, List.append_assoc]
      rfl
    · intro ev hev
      rcases List.mem_append.mp hev with hev | hev
      · exact hqr ev (queryTrace_query β ev hev)
      · obtain ⟨n, hn⟩ := List.mem_iff_getElem?.mp hev
        have hlen : n < 11 := by
          have := (List.getElem?_eq_some.mp hn).1
          rw [List.length_take] at this
          omega
        have hp : (pipeline β)[n]? = some ev := by
          rw [← hn, List.getElem?_take_of_lt hlen]
          unfold pipeline
          rw [List.getElem?_append_left (by show n < 12; omega)]
        rcases pipeline_getElem β n ev hp with ⟨hi0, rfl⟩ | ⟨hi0, rfl⟩ | ⟨hi0, rfl⟩ |
        ⟨hi0, rfl⟩ | ⟨hi0, rfl⟩ | ⟨hi0, rfl⟩ | ⟨hi0, rfl⟩ | ⟨hi0, rfl⟩ | ⟨hi0, rfl⟩ |
        ⟨hi0, rfl⟩ | ⟨hi0, rfl⟩ | ⟨hi0, rfl⟩ | ⟨hi0, hr⟩
        all_goals first | rfl | omega
    · rw [List.filterMap_append, List.filterMap_eq_nil_iff.mpr
        (fun ev hev => hqc ev (queryTrace_query β ev hev)), List.nil_append]
      rfl
    · rw [List.filterMap_append, List.filterMap_eq_nil_iff.mpr
        (fun ev hev => hqc ev (queryTrace_query β ev hev)), List.nil_append]
      rfl
  · intro hn ev hev
    rcases mem_trace β ev hev with hq | ⟨hearly, i, hi, he⟩
    · exact hqr ev hq
    · have hk : pipelineCalls β ≤ 12 := by
        have h18 : pipelineCalls β ≠ 18 := fun h =>
          hn ((exitOf_zero_iff β).mpr ((completes_iff β).mpr ⟨hearly, h⟩))
        have h12 := (pipeline_facts β).2.2.2.2.2.2.2.2.2.2.1
        by_contra hlt
        exact h18 (h12 (by omega)).2
      rcases pipeline_getElem β i ev he with ⟨hi0, rfl⟩ | ⟨hi0, rfl⟩ | ⟨hi0, rfl⟩ |
        ⟨hi0, rfl⟩ | ⟨hi0, rfl⟩ | ⟨hi0, rfl⟩ | ⟨hi0, rfl⟩ | ⟨hi0, rfl⟩ | ⟨hi0, rfl⟩ |
        ⟨hi0, rfl⟩ | ⟨hi0, rfl⟩ | ⟨hi0, rfl⟩ | ⟨hi0, hr⟩
      all_goals first | rfl | omega

theorem releases_reverse_creation_witness :
    ∃ pre rels, (main (successWith [])).trace = pre ++ evReadBuffer (successWith []) :: rels ∧
      (∀ ev ∈ pre, ev.call.isRelease = false) ∧
      pre.filterMap Event.creates =
        [(.context, 1), (.program, 2), (.kernel, 3), (.buffer, 4), (.buffer, 5),
         (.queue, 6)] ∧
      rels.map (fun ev => ev.call.releases) =
        (pre.filterMap Event.creates).reverse.map some :=
  (releases_reverse_creation (successWith [])).1
    (by rw [(main_run _).2.1]; decide)

theorem fillVec_exact {α : Type} (l : List α) (dflt : α) :
    fillVec l.length l dflt = l := by
  simp [fillVec]

/-- C9. When enumeration returns the non-empty platform list `ps` and, for its
first platform, the non-empty device list `ds`: every context creation is for
the first platform and the whole list `ds` (same count, same sequence), every
build call is for the whole list `ds`, and every queue creation is on the
first device of `ds`.  When the vectors and name strings of enumeration are
allocated, the devices are enumerated for the first platform and the context
creation is in the trace; otherwise the process aborts during enumeration and
the trace holds enumeration calls only.  When nothing stops `main`, the build
and the queue creation are in the trace. -/
theorem first_platform_all_devices (β : Behaviour) (ps ds : List Handle)
    (hps : ps ≠ []) (hds : ds ≠ [])
    (hpc : β.platformCount.count = ps.length) (hpi : β.platformIds.ids = ps)
    (hdc : β.deviceCount.count = ds.length) (hdi : β.deviceIds.ids = ds) :
    (QueriesDone β →
      (⟨.getDeviceIDs (ps.head hps) .all ds.length true false, β.deviceIds⟩ : Event) ∈
        (main β).trace ∧
      (⟨.createContext (ps.head hps) ds.length ds, β.createContext⟩ : Event) ∈
        (main β).trace) ∧
    (¬ QueriesDone β →
      (main β).exitCode = none ∧ ∀ ev ∈ (main β).trace, ev.call.isQuery = true) ∧
    (∀ ev ∈ (main β).trace, ∀ p n d, ev.call = .createContext p n d →
      p = ps.head hps ∧ n = ds.length ∧ d = ds) ∧
    (∀ ev ∈ (main β).trace, ∀ prog n d, ev.call = .buildProgram prog n d →
      prog = β.createProgram.handle ∧ n = ds.length ∧ d = ds) ∧
    (∀ ev ∈ (main β).trace, ∀ ctx dev, ev.call = .createCommandQueue ctx dev →
      ctx = β.createContext.handle ∧ dev = ds.head hds) ∧
    (Completes β →
      (⟨.buildProgram β.createProgram.handle ds.length ds, β.buildProgram⟩ : Event) ∈
        (main β).trace ∧
      (⟨.createCommandQueue β.createContext.handle (ds.head hds), β.createQueue⟩ : Event) ∈
        (main β).trace) := by
  have hP : platformIdsOf β = ps := by
    unfold platformIdsOf; rw [hpc, hpi]; exact fillVec_exact ps 0
  have hD : deviceIdsOf β = ds := by
    unfold deviceIdsOf; rw [hdc, hdi]; exact fillVec_exact ds 0
  have hp0 : (platformIdsOf β).getD 0 0 = ps.head hps := by
    rw [hP]; cases ps with
    | nil => exact absurd rfl hps
    | cons x xs => rfl
  have hd0 : (deviceIdsOf β).getD 0 0 = ds.head hds := by
    rw [hD]; cases ds with
    | nil => exact absurd rfl hds
    | cons x xs => rfl
  have h1 : β.platformCount.count ≠ 0 := by
    rw [hpc]; exact fun h => hps (List.length_eq_zero.mp h)
  have h2 : β.deviceCount.count ≠ 0 := by
    rw [hdc]; exact fun h => hds (List.length_eq_zero.mp h)
  have e1 : evCreateContext β = ⟨.createContext (ps.head hps) ds.length ds, β.createContext⟩ := by
    unfold evCreateContext; rw [hp0, hD, hdc]
  have e2 : evBuildProgram β =
      ⟨.buildProgram β.createProgram.handle ds.length ds, β.buildProgram⟩ := by
    unfold evBuildProgram; rw [hD, hdc]
  have e3 : evCreateQueue β =
      ⟨.createCommandQueue β.createContext.handle (ds.head hds), β.createQueue⟩ := by
    unfold evCreateQueue; rw [hd0]
  have hpipe : early β = none → ∀ i x, i < pipelineCalls β → (pipeline β)[i]? = some x →
      x ∈ (main β).trace := by
    intro hearly i x hi hx
    rw [trace_of_queriesDone β hearly]
    apply List.mem_append_right
    apply List.getElem?_mem (n := i)
    rw [List.getElem?_take_of_lt hi]
    exact hx
  have hqn : ∀ ev : Event, ev.call.isQuery = true →
      (∀ p n d, ev.call ≠ .createContext p n d) ∧
      (∀ p n d, ev.call ≠ .buildProgram p n d) ∧
      (∀ c d, ev.call ≠ .createCommandQueue c d) := by
    intro ev hq
    cases hcall : ev.call <;> rw [hcall] at hq <;>
      first
        | exact Bool.noConfusion hq
        | exact ⟨fun _ _ _ h => Call.noConfusion h, fun _ _ _ h => Call.noConfusion h,
            fun _ _ h => Call.noConfusion h⟩
  have hrn : ∀ ev : Event, ev.call.isRelease = true →
      (∀ p n d, ev.call ≠ .createContext p n d) ∧
      (∀ p n d, ev.call ≠ .buildProgram p n d) ∧
      (∀ c d, ev.call ≠ .createCommandQueue c d) := by
    intro ev hq
    cases hcall : ev.call <;> rw [hcall] at hq <;>
      first
        | exact Bool.noConfusion hq
        | exact ⟨fun _ _ _ h => Call.noConfusion h, fun _ _ _ h => Call.noConfusion h,
            fun _ _ h => Call.noConfusion h⟩
  refine ⟨?_, ?_, ?_, ?_, ?_, ?_⟩
  · intro hq
    have hearly := (early_none_iff β).mpr hq
    refine ⟨?_, ?_⟩
    · rw [trace_of_queriesDone β hearly]
      apply List.mem_append_left
      unfold queryTrace devicePhase
      rw [hp0, hdc]
      simp
    · rw [← e1]
      exact hpipe hearly 0 _ (pipelineCalls_pos β) rfl
  · intro hq
    rcases hearly : early β with _ | ⟨t, e⟩
    · exact absurd ((early_none_iff β).mp hearly) hq
    · have htr : (main β).trace = t := by rw [(main_run β).1, traceOf, hearly]
      have hex : (main β).exitCode = e := by rw [(main_run β).2.1, exitOf, hearly]
      rw [htr, hex]
      refine ⟨?_, (early_query β t e hearly).1⟩
      rcases (early_query β t e hearly).2 with ⟨-, h0 | h0⟩ | hn
      · exact absurd h0 h1
      · exact absurd h0 h2
      · exact hn
  · intro ev hev p n d hcall
    rcases mem_trace β ev hev with hq | ⟨-, i, hi, he⟩
    · exact absurd hcall ((hqn ev hq).1 p n d)
    · rcases pipeline_getElem β i ev he with ⟨hi0, rfl⟩ | ⟨hi0, rfl⟩ | ⟨hi0, rfl⟩ |
        ⟨hi0, rfl⟩ | ⟨hi0, rfl⟩ | ⟨hi0, rfl⟩ | ⟨hi0, rfl⟩ | ⟨hi0, rfl⟩ | ⟨hi0, rfl⟩ |
        ⟨hi0, rfl⟩ | ⟨hi0, rfl⟩ | ⟨hi0, rfl⟩ | ⟨hi0, hr⟩
      · rw [e1] at hcall
        injection hcall with a b c
        exact ⟨a.symm, b.symm, c.symm⟩
      all_goals first
        | exact absurd hcall ((hrn ev hr).1 p n d)
        | exact Call.noConfusion hcall
  · intro ev hev p n d hcall
    rcases mem_trace β ev hev with hq | ⟨-, i, hi, he⟩
    · exact absurd hcall ((hqn ev hq).2.1 p n d)
    · rcases pipeline_getElem β i ev he with ⟨hi0, rfl⟩ | ⟨hi0, rfl⟩ | ⟨hi0, rfl⟩ |
        ⟨hi0, rfl⟩ | ⟨hi0, rfl⟩ | ⟨hi0, rfl⟩ | ⟨hi0, rfl⟩ | ⟨hi0, rfl⟩ | ⟨hi0, rfl⟩ |
        ⟨hi0, rfl⟩ | ⟨hi0, rfl⟩ | ⟨hi0, rfl⟩ | ⟨hi0, hr⟩
      · exact Call.noConfusion hcall
      · exact Call.noConfusion hcall
      · rw [e2] at hcall
        injection hcall with a b c
        exact ⟨a.symm, b.symm, c.symm⟩
      all_goals first
        | exact absurd hcall ((hrn ev hr).2.1 p n d)
        | exact Call.noConfusion hcall
  · intro ev hev c d hcall
    rcases mem_trace β ev hev with hq | ⟨-, i, hi, he⟩
    · exact absurd hcall ((hqn ev hq).2.2 c d)
    · rcases pipeline_getElem β i ev he with ⟨hi0, rfl⟩ | ⟨hi0, rfl⟩ | ⟨hi0, rfl⟩ |
        ⟨hi0, rfl⟩ | ⟨hi0, rfl⟩ | ⟨hi0, rfl⟩ | ⟨hi0, rfl⟩ | ⟨hi0, rfl⟩ | ⟨hi0, rfl⟩ |
        ⟨hi0, rfl⟩ | ⟨hi0, rfl⟩ | ⟨hi0, rfl⟩ | ⟨hi0, hr⟩
      · exact Call.noConfusion hcall
      · exact Call.noConfusion hcall
      · exact Call.noConfusion hcall
      · exact Call.noConfusion hcall
      · exact Call.noConfusion hcall
      · exact Call.noConfusion hcall
      · rw [e3] at hcall
        injection hcall with a b
        exact ⟨a.symm, b.symm⟩
      all_goals first
        | exact absurd hcall ((hrn ev hr).2.2 c d)
        | exact Call.noConfusion hcall
  · intro hc
    obtain ⟨hearly, hk⟩ := (completes_iff β).mp hc
    exact ⟨e2 ▸ hpipe hearly 2 _ (by omega) rfl, e3 ▸ hpipe hearly 6 _ (by omega) rfl⟩

theorem first_platform_all_devices_witness :
    QueriesDone threeDevices ∧ Completes threeDevices ∧
    (QueriesDone threeDevices →
      (⟨.getDeviceIDs 7 .all 3 true false, threeDevices.deviceIds⟩ : Event) ∈
        (main threeDevices).trace ∧
      (⟨.createContext 7 3 [9, 10, 11], threeDevices.createContext⟩ : Event) ∈
        (main threeDevices).trace) ∧
    (¬ QueriesDone threeDevices →
      (main threeDevices).exitCode = none ∧
      ∀ ev ∈ (main threeDevices).trace, ev.call.isQuery = true) ∧
    (∀ ev ∈ (main threeDevices).trace, ∀ p n d, ev.call = .createContext p n d →
      p = 7 ∧ n = 3 ∧ d = [9, 10, 11]) ∧
    (∀ ev ∈ (main threeDevices).trace, ∀ prog n d, ev.call = .buildProgram prog n d →
      prog = 2 ∧ n = 3 ∧ d = [9, 10, 11]) ∧
    (∀ ev ∈ (main threeDevices).trace, ∀ ctx dev, ev.call = .createCommandQueue ctx dev →
      ctx = 1 ∧ dev = 9) ∧
    (Completes threeDevices →
      (⟨.buildProgram 2 3 [9, 10, 11], threeDevices.buildProgram⟩ : Event) ∈
        (main threeDevices).trace ∧
      (⟨.createCommandQueue 1 9, threeDevices.createQueue⟩ : Event) ∈
        (main threeDevices).trace) :=
  ⟨by decide, by decide,
    first_platform_all_devices threeDevices [7, 8] [9, 10, 11] (by decide) (by decide)
      rfl rfl rfl rfl⟩

theorem roundF32_exact (n : Nat) (h : n < 2 ^ 24) : roundF32 n = n := by
  have hlog : Nat.log2 n + 1 - 24 = 0 := by
    by_cases h0 : n = 0
    · subst h0; simp [Nat.log2_zero]
    · have := (Nat.log2_lt h0).mpr h
      omega
  unfold roundF32
  simp only [hlog, pow_zero, Nat.div_one, Nat.mod_one, Nat.mul_one, Nat.mul_zero]
  rw [if_neg]
  intro hh
  rcases hh with hh | ⟨hh, -⟩ <;> omega

theorem testDataSize_eq : testDataSize = 1024 := by decide

theorem xor_bound (c i : Nat) (hc : c < 1024) (hi : i < 1024) : c ^^^ i < 1024 :=
  Nat.xor_lt_two_pow (n := 10) hc hi

/-- C7. For every index `i` below 1024 the test values `23 xor i` and
`42 xor i` are below 1024; the conversions to float, the product `2 * b[i]` and
the sum `a[i] + 2 * b[i]` are at most 3069, below `2^24`, and each of them is
computed without rounding: the float result is the integer result. -/
theorem test_values_exact (i : Nat) (h : i < testDataSize) :
    23 ^^^ i < 1024 ∧ 42 ^^^ i < 1024 ∧
    hostA[i]? = some (23 ^^^ i) ∧ hostB[i]? = some (42 ^^^ i) ∧
    fmul two (42 ^^^ i) = 2 * (42 ^^^ i) ∧
    fadd (23 ^^^ i) (fmul two (42 ^^^ i)) = (23 ^^^ i) + 2 * (42 ^^^ i) ∧
    (23 ^^^ i) + 2 * (42 ^^^ i) ≤ 3069 ∧ 3069 < 2 ^ 24 ∧
    roundF32 ((23 ^^^ i) + 2 * (42 ^^^ i)) = (23 ^^^ i) + 2 * (42 ^^^ i) := by
  rw [testDataSize_eq] at h
  have ha := xor_bound 23 i (by omega) h
  have hb := xor_bound 42 i (by omega) h
  have h2 : two = 2 := roundF32_exact 2 (by omega)
  have hm : fmul two (42 ^^^ i) = 2 * (42 ^^^ i) := by
    unfold fmul; rw [h2]; exact roundF32_exact _ (by omega)
  refine ⟨ha, hb, ?_, ?_, hm, ?_, by omega, by omega, roundF32_exact _ (by omega)⟩
  · unfold hostA
    rw [List.getElem?_map, List.getElem?_range (by rw [testDataSize_eq]; exact h)]
    exact congrArg some (roundF32_exact _ (by omega))
  · unfold hostB
    rw [List.getElem?_map, List.getElem?_range (by rw [testDataSize_eq]; exact h)]
    exact congrArg some (roundF32_exact _ (by omega))
  · rw [hm]; unfold fadd; exact roundF32_exact _ (by omega)

theorem test_values_exact_witness :
    23 ^^^ 1000 < 1024 ∧ 42 ^^^ 1000 < 1024 ∧
    hostA[1000]? = some (23 ^^^ 1000) ∧ hostB[1000]? = some (42 ^^^ 1000) ∧
    fmul two (42 ^^^ 1000) = 2 * (42 ^^^ 1000) ∧
    fadd (23 ^^^ 1000) (fmul two (42 ^^^ 1000)) = (23 ^^^ 1000) + 2 * (42 ^^^ 1000) ∧
    (23 ^^^ 1000) + 2 * (42 ^^^ 1000) ≤ 3069 ∧ 3069 < 2 ^ 24 ∧
    roundF32 ((23 ^^^ 1000) + 2 * (42 ^^^ 1000)) = (23 ^^^ 1000) + 2 * (42 ^^^ 1000) :=
  test_values_exact 1000 (by decide)

theorem launch_succ (first second : List F32) (s : F32) (n : Nat) :
    launch first second s (n + 1) = SAXPY first (launch first second s n) s n := by
  simp [launch, List.range_succ, List.foldl_append]

/-- A launch of global size `n` updates exactly the elements below `n`. -/
theorem launch_spec (first second : List F32) (s : F32) :
    ∀ n, n ≤ first.length → n ≤ second.length →
      (launch first second s n).length = second.length ∧
      (∀ j x y, j < n → first[j]? = some x → second[j]? = some y →
        (launch first second s n)[j]? = some (fadd x (fmul s y))) ∧
      (∀ j, n ≤ j → (launch first second s n)[j]? = second[j]?) := by
  intro n
  induction n with
  | zero =>
    intro _ _
    refine ⟨rfl, ?_, fun j _ => rfl⟩
    intro j x y hj
    omega
  | succ n ih =>
    intro h1 h2
    obtain ⟨ihl, ihlt, ihge⟩ := ih (by omega) (by omega)
    have hx : first[n]? = some first[n] := List.getElem?_eq_getElem (by omega)
    have hy : second[n]? = some second[n] := List.getElem?_eq_getElem (by omega)
    have hcur : (launch first second s n)[n]? = some second[n] := by
      rw [ihge n (le_refl n), hy]
    have hstep : launch first second s (n + 1) =
        (launch first second s n).set n (fadd first[n] (fmul s second[n])) := by
      rw [launch_succ]
      unfold SAXPY
      rw [hx, hcur]
    rw [hstep]
    refine ⟨by rw [List.length_set, ihl], ?_, ?_⟩
    · intro j x y hj hfx hsy
      rw [List.getElem?_set]
      by_cases hnj : n = j
      · subst hnj
        rw [if_pos rfl, if_pos (by rw [ihl]; omega)]
        rw [hx] at hfx
        rw [hy] at hsy
        rw [Option.some.inj hfx, Option.some.inj hsy]
      · rw [if_neg hnj]
        exact ihlt j x y (by omega) hfx hsy
    · intro j hj
      rw [List.getElem?_set, if_neg (by omega)]
      exact ihge j (by omega)

theorem writeInto_same_length {α : Type} (dst src : List α)
    (h : src.length = dst.length) : writeInto dst src = src := by
  unfold writeInto
  rw [List.take_of_length_le (by omega), List.drop_of_length_le (by omega),
    List.append_nil]

theorem hostA_length : hostA.length = testDataSize := by simp [hostA]

theorem hostB_length : hostB.length = testDataSize := by simp [hostB]

/-- Passive calls neither change the device nor constrain the responses. -/
theorem faithful_passive (d : Device) (ev : Event) (rest : List Event)
    (h : ev.call.passive = true) : faithful d (ev :: rest) = faithful d rest := by
  have hd : d.apply ev = d := by
    unfold Device.apply
    cases hcall : ev.call <;> rw [hcall] at h <;>
      first | exact Bool.noConfusion h | exact ite_self _
  have hm : (match ev.call with
    | .createBuffer .. =>
      decide (ev.resp.status = CL_SUCCESS → d.buffers ev.resp.handle = none)
    | .enqueueReadBuffer _ b _ off size =>
      decide (ev.resp.status = CL_SUCCESS → ev.resp.data = d.read b off size)
    | _ => true) = true := by
    cases hcall : ev.call <;> rw [hcall] at h <;> exact Bool.noConfusion h
  rw [faithful, hm, hd, Bool.true_and]

theorem faithful_queries (d : Device) (l : List Event) :
    ∀ q : List Event, (∀ ev ∈ q, ev.call.isQuery = true) →
      faithful d (q ++ l) = faithful d l := by
  intro q
  induction q with
  | nil => intro _; rfl
  | cons ev q ih =>
    intro h
    have hq := h ev (List.mem_cons_self _ _)
    have hp : ev.call.passive = true := by
      cases hcall : ev.call <;> rw [hcall] at hq <;>
        first | exact Bool.noConfusion hq | rfl
    rw [List.cons_append, faithful_passive d ev _ hp]
    exact ih (fun x hx => h x (List.mem_cons_of_mem _ hx))

theorem faithful_createBuffer (d : Device) (c : Handle) (a : Access) (size : Nat)
    (host : List F32) (r : Response) (rest : List Event) (hs : r.status = CL_SUCCESS) :
    faithful d (⟨.createBuffer c a true size host, r⟩ :: rest) =
      (decide (d.buffers r.handle = none) &&
        faithful (d.withBuffer r.handle (host.take (size / 4))) rest) := by
  have hd : d.apply ⟨.createBuffer c a true size host, r⟩ =
      d.withBuffer r.handle (host.take (size / 4)) := by
    unfold Device.apply
    rw [if_pos hs]
    rfl
  rw [faithful, hd]
  simp only [hs, forall_const]

theorem faithful_setKernelArg (d : Device) (k : Handle) (i : Nat) (v : ArgValue)
    (r : Response) (rest : List Event) (hs : r.status = CL_SUCCESS) :
    faithful d (⟨.setKernelArg k i v, r⟩ :: rest) = faithful (d.withArg k i v) rest := by
  have hd : d.apply ⟨.setKernelArg k i v, r⟩ = d.withArg k i v := by
    unfold Device.apply
    rw [if_pos hs]
  rw [faithful, hd, Bool.true_and]

theorem faithful_enqueueKernel (d : Device) (q k : Handle) (dim : Nat) (gws : List Nat)
    (r : Response) (rest : List Event) (hs : r.status = CL_SUCCESS) :
    faithful d (⟨.enqueueNDRangeKernel q k dim gws, r⟩ :: rest) =
      faithful (d.run k (gws.headD 0)) rest := by
  have hd : d.apply ⟨.enqueueNDRangeKernel q k dim gws, r⟩ = d.run k (gws.headD 0) := by
    unfold Device.apply
    rw [if_pos hs]
  rw [faithful, hd, Bool.true_and]

theorem faithful_readBuffer (d : Device) (q b : Handle) (bl : Bool) (off size : Nat)
    (r : Response) (rest : List Event) (hs : r.status = CL_SUCCESS) :
    faithful d (⟨.enqueueReadBuffer q b bl off size, r⟩ :: rest) =
      (decide (r.data = d.read b off size) && faithful d rest) := by
  have hd : d.apply ⟨.enqueueReadBuffer q b bl off size, r⟩ = d := by
    unfold Device.apply
    exact ite_self _
  rw [faithful, hd]
  simp only [hs, forall_const]

theorem faithful_releases (d : Device) (β : Behaviour) :
    faithful d (releaseEvents β) = true := by
  unfold releaseEvents
  rw [faithful_passive _ ⟨.releaseCommandQueue _, _⟩ _ rfl,
    faithful_passive _ ⟨.releaseMemObject _, _⟩ _ rfl,
    faithful_passive _ ⟨.releaseMemObject _, _⟩ _ rfl,
    faithful_passive _ ⟨.releaseKernel _, _⟩ _ rfl,
    faithful_passive _ ⟨.releaseProgram _, _⟩ _ rfl,
    faithful_passive _ ⟨.releaseContext _, _⟩ _ rfl]
  rfl

/-- The device after the two buffers are seeded, the three arguments bound and
the kernel run. -/
theorem run_seeded (hA hB k : Handle) (A B : List F32) (t : F32) (n : Nat)
    (hne : hA ≠ hB) :
    (((((Device.empty.withBuffer hA A).withBuffer hB B).withArg k 0 (.mem hA)).withArg
      k 1 (.mem hB)).withArg k 2 (.float t)).run k n =
    Device.withBuffer
      (((((Device.empty.withBuffer hA A).withBuffer hB B).withArg k 0 (.mem hA)).withArg
        k 1 (.mem hB)).withArg k 2 (.float t)) hB (launch A B t n) := by
  simp [Device.run, Device.withArg, Device.withBuffer, Device.empty, hne]

theorem read_withBuffer (d : Device) (h : Handle) (c : List F32) (n : Nat) :
    (d.withBuffer h c).read h 0 (4 * n) = c.take n := by
  have h4 : 4 * n / 4 = n := Nat.mul_div_cancel_left _ (by decide)
  unfold Device.read Device.withBuffer
  simp only [if_true, Option.getD_some, Nat.zero_div, List.drop_zero, h4]

theorem hostA_getElem (i : Nat) (h : i < 1024) : hostA[i]? = some (23 ^^^ i) := by
  unfold hostA
  rw [List.getElem?_map, List.getElem?_range (by rw [testDataSize_eq]; exact h)]
  exact congrArg some (roundF32_exact _ (by have := xor_bound 23 i (by omega) h; omega))

theorem hostB_getElem (i : Nat) (h : i < 1024) : hostB[i]? = some (42 ^^^ i) := by
  unfold hostB
  rw [List.getElem?_map, List.getElem?_range (by rw [testDataSize_eq]; exact h)]
  exact congrArg some (roundF32_exact _ (by have := xor_bound 42 i (by omega) h; omega))

theorem saxpy_exact (i : Nat) (h : i < 1024) :
    fadd (23 ^^^ i) (fmul two (42 ^^^ i)) = (23 ^^^ i) + 2 * (42 ^^^ i) := by
  have ha := xor_bound 23 i (by omega) h
  have hb := xor_bound 42 i (by omega) h
  have h2 : two = 2 := roundF32_exact 2 (by omega)
  unfold fadd fmul
  rw [h2, roundF32_exact (2 * (42 ^^^ i)) (by omega), roundF32_exact _ (by omega)]

theorem expected_getElem (i : Nat) (h : i < 1024) :
    expected[i]? = some ((23 ^^^ i) + 2 * (42 ^^^ i)) := by
  unfold expected
  rw [List.getElem?_map, List.getElem?_range (by rw [testDataSize_eq]; exact h)]
  rfl

theorem expected_length : expected.length = testDataSize := by simp [expected]

/-- The launch of `main` on the seeded buffers computes `a[i] + 2 * b[i]` exactly. -/
theorem launch_expected : launch hostA hostB two testDataSize = expected := by
  obtain ⟨hlen, hlt, -⟩ := launch_spec hostA hostB two testDataSize
    (le_of_eq hostA_length.symm) (le_of_eq hostB_length.symm)
  apply List.ext_getElem?
  intro i
  by_cases hi : i < 1024
  · rw [hlt i _ _ (by rw [testDataSize_eq]; exact hi) (hostA_getElem i hi)
      (hostB_getElem i hi), saxpy_exact i hi, expected_getElem i hi]
  · rw [List.getElem?_eq_none (by rw [hlen, hostB_length, testDataSize_eq]; omega),
      List.getElem?_eq_none (by rw [expected_length, testDataSize_eq]; omega)]

/-- When no call fails, the trace is that of a faithful runtime exactly when
the two buffers got different handles and the read-back returned `expected`. -/
theorem faithful_trace (β : Behaviour) (hc : Completes β)
    (h0 : β.setArg0.status = CL_SUCCESS) (h1 : β.setArg1.status = CL_SUCCESS)
    (h2 : β.setArg2.status = CL_SUCCESS) :
    faithful Device.empty (main β).trace = true ↔
      β.createBufferA.handle ≠ β.createBufferB.handle ∧ β.readBuffer.data = expected := by
  obtain ⟨hearly, hk⟩ := (completes_iff β).mp hc
  obtain ⟨-, -, -, -, -, -, -, -, c5, c6, -, c8, c9⟩ := hc
  rw [trace_of_queriesDone β hearly, hk, faithful_queries _ _ _ (queryTrace_query β)]
  have hp : List.take 18 (pipeline β) = workEvents β ++ releaseEvents β := rfl
  have h4 : 4 * testDataSize / 4 = testDataSize := Nat.mul_div_cancel_left _ (by decide)
  have htA : List.take testDataSize hostA = hostA :=
    List.take_of_length_le (le_of_eq hostA_length)
  have htB : List.take testDataSize hostB = hostB :=
    List.take_of_length_le (le_of_eq hostB_length)
  have hh : [testDataSize, 0, 0].headD 0 = testDataSize := rfl
  have hfresh : (Device.empty.withBuffer β.createBufferA.handle hostA).buffers
      β.createBufferB.handle = none ↔ β.createBufferA.handle ≠ β.createBufferB.handle := by
    simp only [Device.withBuffer, Device.empty]
    constructor
    · intro h heq
      rw [if_pos heq.symm] at h
      exact Option.noConfusion h
    · intro h
      rw [if_neg (fun heq => h heq.symm)]
  rw [hp]
  unfold workEvents
  simp only [List.cons_append, List.nil_append]
  rw [faithful_passive _ (evCreateContext β) _ rfl,
    faithful_passive _ (evCreateProgram β) _ rfl,
    faithful_passive _ (evBuildProgram β) _ rfl,
    faithful_passive _ (evCreateKernel β) _ rfl,
    evCreateBufferA, faithful_createBuffer _ _ _ _ _ _ _ c5,
    evCreateBufferB, faithful_createBuffer _ _ _ _ _ _ _ c6,
    faithful_passive _ (evCreateQueue β) _ rfl,
    evSetArg0, faithful_setKernelArg _ _ _ _ _ _ h0,
    evSetArg1, faithful_setKernelArg _ _ _ _ _ _ h1,
    evSetArg2, faithful_setKernelArg _ _ _ _ _ _ h2,
    evEnqueueKernel, faithful_enqueueKernel _ _ _ _ _ _ _ c8,
    evReadBuffer, faithful_readBuffer _ _ _ _ _ _ _ _ c9,
    faithful_releases, h4, htA, htB, hh]
  simp only [Bool.and_eq_true, decide_eq_true_eq, Bool.and_true]
  have hnone : Device.empty.buffers β.createBufferA.handle = none := rfl
  constructor
  · rintro ⟨-, hf, hread⟩
    have hAB := hfresh.mp hf
    rw [run_seeded _ _ _ _ _ _ _ hAB, read_withBuffer, launch_expected,
      List.take_of_length_le (le_of_eq expected_length)] at hread
    exact ⟨hAB, hread⟩
  · rintro ⟨hAB, hread⟩
    refine ⟨hnone, hfresh.mpr hAB, ?_⟩
    rw [run_seeded _ _ _ _ _ _ _ hAB, read_withBuffer, launch_expected,
      List.take_of_length_le (le_of_eq expected_length)]
    exact hread

theorem successWith_data (data : List F32) :
    (successWith data).readBuffer.data = data := rfl

/-- C2. When platforms and devices are found, every allocation is granted,
every checked call and every argument binding returns `CL_SUCCESS`, and the
responses are those of a faithful runtime running the `SAXPY` kernel of the
spec, the host vector `b` at the end of `main` has 1024 elements with
`b[i] = (23 xor i) + 2 * (42 xor i)` for every `i < 1024`.  The trace has the calls that make it so: the buffer seeded from `a`
and the buffer seeded from `b`, slot 0 bound to the first, slot 1 to the
second, slot 2 to `2.0`, a one-dimensional launch of global size 1024, and a
blocking read of all 1024 floats of the second buffer. -/
theorem saxpy_result (β : Behaviour) (hc : Completes β)
    (h0 : β.setArg0.status = CL_SUCCESS) (h1 : β.setArg1.status = CL_SUCCESS)
    (h2 : β.setArg2.status = CL_SUCCESS)
    (hf : faithful Device.empty (main β).trace = true) :
    (∃ b, (main β).b = some b ∧ b.length = 1024 ∧
      ∀ i, i < 1024 → b[i]? = some ((23 ^^^ i) + 2 * (42 ^^^ i))) ∧
    (⟨.createBuffer β.createContext.handle .readOnly true (4 * testDataSize) hostA,
      β.createBufferA⟩ : Event) ∈ (main β).trace ∧
    (⟨.createBuffer β.createContext.handle .readWrite true (4 * testDataSize) hostB,
      β.createBufferB⟩ : Event) ∈ (main β).trace ∧
    (⟨.setKernelArg β.createKernel.handle 0 (.mem β.createBufferA.handle),
      β.setArg0⟩ : Event) ∈ (main β).trace ∧
    (⟨.setKernelArg β.createKernel.handle 1 (.mem β.createBufferB.handle),
      β.setArg1⟩ : Event) ∈ (main β).trace ∧
    (⟨.setKernelArg β.createKernel.handle 2 (.float two), β.setArg2⟩ : Event) ∈
      (main β).trace ∧
    (⟨.enqueueNDRangeKernel β.createQueue.handle β.createKernel.handle 1
      [testDataSize, 0, 0], β.enqueueKernel⟩ : Event) ∈ (main β).trace ∧
    (⟨.enqueueReadBuffer β.createQueue.handle β.createBufferB.handle true 0
      (4 * testDataSize), β.readBuffer⟩ : Event) ∈ (main β).trace ∧
    two = 2 ∧ testDataSize = 1024 := by
  have hdata := ((faithful_trace β hc h0 h1 h2).mp hf).2
  have htr : (main β).trace = queryTrace β ++ (pipeline β).take 18 := by
    obtain ⟨hearly, hk⟩ := (completes_iff β).mp hc
    rw [trace_of_queriesDone β hearly, hk]
  have hpipe : ∀ i x, i < 18 → (pipeline β)[i]? = some x → x ∈ (main β).trace := by
    intro i x hi hx
    rw [htr]
    apply List.mem_append_right
    apply List.getElem?_mem (n := i)
    rw [List.getElem?_take_of_lt hi]
    exact hx
  refine ⟨⟨expected, ?_, ?_, ?_⟩, hpipe 4 _ (by omega) rfl, hpipe 5 _ (by omega) rfl,
    hpipe 7 _ (by omega) rfl, hpipe 8 _ (by omega) rfl, hpipe 9 _ (by omega) rfl,
    hpipe 10 _ (by omega) rfl, hpipe 11 _ (by omega) rfl,
    roundF32_exact 2 (by omega), testDataSize_eq⟩
  · rw [(main_run β).2.2, if_pos ((exitOf_zero_iff β).mpr hc), hdata,
      List.take_of_length_le (le_of_eq expected_length),
      writeInto_same_length _ _ (by rw [expected_length, hostB_length])]
  · rw [expected_length, testDataSize_eq]
  · exact expected_getElem

theorem saxpy_result_witness :
    ∃ b, (main (successWith expected)).b = some b ∧ b.length = 1024 ∧
      ∀ i, i < 1024 → b[i]? = some ((23 ^^^ i) + 2 * (42 ^^^ i)) :=
  (saxpy_result (successWith expected) (by decide) rfl rfl rfl
    ((faithful_trace (successWith expected) (by decide) rfl rfl rfl).mpr
      ⟨show (4 : Nat) ≠ 5 by decide, successWith_data expected⟩)).1

end OpenCLTutorial
